import Mathlib

/-!
# Qualcomm Atheros IPQ806x GMAC glue layer (dwmac-ipq806x.c)

A shallow embedding of the register programming done by
`drivers/net/ethernet/stmicro/stmmac/dwmac-ipq806x.c`, and theorems about it.

Conventions of the embedding:

* a C `uint32_t` is a `Nat` kept below `2 ^ 32` by an explicit `% 2 ^ 32`;
  a C `int` is an `Int`, and its two's complement image is taken when it is
  stored into a register word;
* the two syscon regmaps (`nss-common`, `qsgmii-csr`) are maps from a register
  offset to a word, and every write that reaches a regmap is appended to a
  transaction log;
* the services of the kernel that the driver only calls (device tree lookups,
  the clock framework, the SoC matcher, the generic stmmac core) appear as
  fields of the `platform_device` record the driver is probed with.
-/

namespace Ipq806x

/-! ## Machine words and the kernel's bit helpers -/

/-- Truncation of a natural number to a 32-bit unsigned word. -/
def u32 (x : Nat) : Nat := x % 2 ^ 32

/-- Two's complement image of a C `int` as a 32-bit unsigned word. -/
def int_to_u32 (x : Int) : Nat := (x % 2 ^ 32).toNat

/-- The C operator `~` on a 32-bit word. -/
def not32 (x : Nat) : Nat := (2 ^ 32 - 1) ^^^ (x % 2 ^ 32)

/-- The C expression `x << n` on an `int`, read back as a 32-bit word
(two's complement, high bits dropped). -/
def int_shl32 (x : Int) (n : Nat) : Nat := int_to_u32 (x * 2 ^ n)

/-- Modelled from the spec: `BIT(n)` is a macro of linux/bits.h, which is not
part of this source file; it is the word with the single bit `n` set. -/
def BIT (n : Nat) : Nat := 1 <<< n

/-- Modelled from the spec: `GENMASK(h, l)` is a macro of linux/bits.h, which is
not part of this source file; it is the 32-bit word with bits `h .. l` set,
`((~0UL) << l) & (~0UL >> (BITS_PER_LONG - 1 - h))` with 32-bit longs. -/
def GENMASK (h l : Nat) : Nat :=
  u32 ((2 ^ 32 - 1) <<< l) &&& ((2 ^ 32 - 1) >>> (31 - h))

/-- Index of the lowest set bit of a mask below bit `n + i`, searching upwards
from bit `i` (0 for the empty mask). -/
def bf_shf_from (mask : Nat) : Nat → Nat → Nat
  | 0, _ => 0
  | n + 1, i => if mask.testBit i then i else bf_shf_from mask n (i + 1)

/-- Modelled from the spec: `__bf_shf(mask)` is a macro of linux/bitfield.h,
which is not part of this source file; it is the index of the lowest set bit
of the mask. -/
def bf_shf (mask : Nat) : Nat := bf_shf_from mask 32 0

/-- Modelled from the spec: `FIELD_PREP(mask, val)` is a macro of
linux/bitfield.h, which is not part of this source file; it shifts the value
to the position of the mask and keeps the bits under the mask. -/
def FIELD_PREP (mask val : Nat) : Nat := u32 (val <<< bf_shf mask) &&& mask

/-! ## Error numbers and link speeds -/

def EINVAL : Int := 22

def ENOMEM : Int := 12

def SPEED_10 : Int := 10

def SPEED_100 : Int := 100

def SPEED_1000 : Int := 1000

/-! ## Register layout (the `#define`s of the driver) -/

def NSS_COMMON_CLK_GATE : Nat := 0x8

def NSS_COMMON_CLK_GATE_PTP_EN (x : Nat) : Nat := BIT (0x10 + x)

def NSS_COMMON_CLK_GATE_RGMII_RX_EN (x : Nat) : Nat := BIT (0x9 + (x * 2))

def NSS_COMMON_CLK_GATE_RGMII_TX_EN (x : Nat) : Nat := BIT (0x8 + (x * 2))

def NSS_COMMON_CLK_GATE_GMII_RX_EN (x : Nat) : Nat := BIT (0x4 + x)

def NSS_COMMON_CLK_GATE_GMII_TX_EN (x : Nat) : Nat := BIT (0x0 + x)

def NSS_COMMON_CLK_DIV0 : Nat := 0xC

def NSS_COMMON_CLK_DIV_OFFSET (x : Nat) : Nat := x * 8

def NSS_COMMON_CLK_DIV_MASK : Nat := 0x7f

def NSS_COMMON_CLK_SRC_CTRL : Nat := 0x14

def NSS_COMMON_CLK_SRC_CTRL_OFFSET (x : Nat) : Nat := x

def NSS_COMMON_CLK_SRC_CTRL_RGMII (_x : Nat) : Nat := 1

def NSS_COMMON_CLK_SRC_CTRL_SGMII (x : Nat) : Nat := if x ≥ 2 then 1 else 0

def NSS_COMMON_GMAC_CTL (x : Nat) : Nat := 0x30 + (x * 4)

def NSS_COMMON_GMAC_CTL_CSYS_REQ : Nat := BIT 19

def NSS_COMMON_GMAC_CTL_PHY_IFACE_SEL : Nat := BIT 16

def NSS_COMMON_GMAC_CTL_IFG_LIMIT_OFFSET : Nat := 8

def NSS_COMMON_GMAC_CTL_IFG_OFFSET : Nat := 0

def NSS_COMMON_CLK_DIV_RGMII_1000 : Int := 1

def NSS_COMMON_CLK_DIV_RGMII_100 : Int := 9

def NSS_COMMON_CLK_DIV_RGMII_10 : Int := 99

def NSS_COMMON_CLK_DIV_SGMII_1000 : Int := 0

def NSS_COMMON_CLK_DIV_SGMII_100 : Int := 4

def NSS_COMMON_CLK_DIV_SGMII_10 : Int := 49

def QSGMII_PCS_ALL_CH_CTL : Nat := 0x80

def QSGMII_PCS_CH_SPEED_FORCE : Nat := BIT 1

def QSGMII_PCS_CH_SPEED_10 : Nat := 0x0

def QSGMII_PCS_CH_SPEED_100 : Nat := BIT 2

def QSGMII_PCS_CH_SPEED_1000 : Nat := BIT 3

def QSGMII_PCS_CH_SPEED_MASK : Nat :=
  QSGMII_PCS_CH_SPEED_FORCE ||| QSGMII_PCS_CH_SPEED_10 |||
    QSGMII_PCS_CH_SPEED_100 ||| QSGMII_PCS_CH_SPEED_1000

def QSGMII_PCS_CH_SPEED_SHIFT (x : Nat) : Nat := x * 4

def QSGMII_PCS_CAL_LCKDT_CTL : Nat := 0x120

def QSGMII_PCS_CAL_LCKDT_CTL_RST : Nat := BIT 19

/-- Only GMAC1/2/3 support SGMII and their CTL registers are not contiguous
(`x - 2` is the subtraction of `uint32_t`). -/
def QSGMII_PHY_SGMII_CTL (x : Nat) : Nat :=
  if x = 1 then 0x134 else u32 (0x13c + 4 * u32 (x + 2 ^ 32 - 2))

def QSGMII_PHY_CDR_EN : Nat := BIT 0

def QSGMII_PHY_RX_FRONT_EN : Nat := BIT 1

def QSGMII_PHY_RX_SIGNAL_DETECT_EN : Nat := BIT 2

def QSGMII_PHY_TX_DRIVER_EN : Nat := BIT 3

def QSGMII_PHY_QSGMII_EN : Nat := BIT 7

def QSGMII_PHY_DEEMPHASIS_LVL_MASK : Nat := GENMASK 11 10

def QSGMII_PHY_DEEMPHASIS_LVL (x : Nat) : Nat := FIELD_PREP QSGMII_PHY_DEEMPHASIS_LVL_MASK x

def QSGMII_PHY_PHASE_LOOP_GAIN_MASK : Nat := GENMASK 14 12

def QSGMII_PHY_PHASE_LOOP_GAIN (x : Nat) : Nat := FIELD_PREP QSGMII_PHY_PHASE_LOOP_GAIN_MASK x

def QSGMII_PHY_RX_DC_BIAS_MASK : Nat := GENMASK 19 18

def QSGMII_PHY_RX_DC_BIAS (x : Nat) : Nat := FIELD_PREP QSGMII_PHY_RX_DC_BIAS_MASK x

def QSGMII_PHY_RX_INPUT_EQU_MASK : Nat := GENMASK 21 20

def QSGMII_PHY_RX_INPUT_EQU (x : Nat) : Nat := FIELD_PREP QSGMII_PHY_RX_INPUT_EQU_MASK x

def QSGMII_PHY_CDR_PI_SLEW_MASK : Nat := GENMASK 23 22

def QSGMII_PHY_CDR_PI_SLEW (x : Nat) : Nat := FIELD_PREP QSGMII_PHY_CDR_PI_SLEW_MASK x

def QSGMII_PHY_TX_SLEW_MASK : Nat := GENMASK 27 26

def QSGMII_PHY_TX_SLEW (x : Nat) : Nat := FIELD_PREP QSGMII_PHY_TX_SLEW_MASK x

def QSGMII_PHY_TX_DRV_AMP_MASK : Nat := GENMASK 31 28

def QSGMII_PHY_TX_DRV_AMP (x : Nat) : Nat := FIELD_PREP QSGMII_PHY_TX_DRV_AMP_MASK x

/-! ## Data model -/

/-- Modelled from the spec: `phy_interface_t` is an enumeration of linux/phy.h,
which is not part of this source file. The driver accepts RGMII, its three
internal-delay variants and SGMII; every other constructor stands for a mode
the driver rejects. -/
inductive phy_interface_t where
  | NA
  | INTERNAL
  | MII
  | GMII
  | SGMII
  | TBI
  | REVMII
  | RMII
  | REVRMII
  | RGMII
  | RGMII_ID
  | RGMII_RXID
  | RGMII_TXID
  | RTBI
  | SMII
  | XGMII
  | XLGMII
  | MOCA
  | PSGMII
  | QSGMII
  | TRGMII
  | BASEX_100
  | BASEX_1000
  | BASEX_2500
  | BASER_5G
  | RXAUI
  | XAUI
  | BASER_10G
  | BASER_25G
  | USXGMII
  | KR_10G
  | QUSGMII
  | BASEKX_1000
  | QXGMII_10G
  deriving DecidableEq, Repr

/-- The two register regions the driver programs. -/
inductive regmap where
  | nss_common
  | qsgmii_csr
  deriving DecidableEq, Repr

/-- One write transaction that reached a regmap. -/
structure reg_write where
  map : regmap
  reg : Nat
  val : Nat
  deriving DecidableEq, Repr

/-- The fields of `struct ipq806x_gmac` that the register programming reads. -/
structure ipq806x_gmac where
  id : Nat
  phy_mode : phy_interface_t
  deriving DecidableEq, Repr

/-- The fields of `struct plat_stmmacenet_data` that the glue layer fills in
before it hands over to the generic stmmac core. -/
structure plat_stmmacenet_data where
  has_gmac : Bool
  bsp_priv : ipq806x_gmac
  multicast_filter_bins : Nat
  tx_fifo_size : Nat
  rx_fifo_size : Nat
  deriving DecidableEq, Repr

/-- What the driver can change: the contents of the two register regions, the
log of the writes made so far, the rate requested for the core clock, and the
configuration handed to `stmmac_dvr_probe` once that call is made. -/
structure hw where
  nss_common : Nat → Nat
  qsgmii_csr : Nat → Nat
  writes : List reg_write
  core_clk_rate : Option Nat
  handoff : Option plat_stmmacenet_data

/-- The words of one register region. -/
def hw.regs (s : hw) : regmap → Nat → Nat
  | .nss_common => s.nss_common
  | .qsgmii_csr => s.qsgmii_csr

/-- Modelled from the spec: `regmap_read` belongs to the kernel's regmap core,
not to this source file; it yields the 32-bit word held at the offset. -/
def regmap_read (s : hw) (m : regmap) (reg : Nat) : Nat := u32 (s.regs m reg)

/-- Modelled from the spec: `regmap_write` belongs to the kernel's regmap core,
not to this source file; it stores the 32-bit word at the offset. The write is
recorded in the transaction log. -/
def regmap_write (s : hw) (m : regmap) (reg val : Nat) : hw :=
  match m with
  | .nss_common =>
    { s with
      nss_common := fun r => if r = reg then u32 val else s.nss_common r
      writes := s.writes ++ [⟨m, reg, u32 val⟩] }
  | .qsgmii_csr =>
    { s with
      qsgmii_csr := fun r => if r = reg then u32 val else s.qsgmii_csr r
      writes := s.writes ++ [⟨m, reg, u32 val⟩] }

/-- Modelled from the spec: `regmap_update_bits` belongs to the kernel's regmap
core, not to this source file. It is a read-modify-write of the bits under
`mask`: the new word is `(orig & ~mask) | (val & mask)`, and, as in the regmap
core, the write-back is skipped when the word does not change. -/
def regmap_update_bits (s : hw) (m : regmap) (reg mask val : Nat) : hw :=
  let orig := regmap_read s m reg
  let tmp := (orig &&& not32 mask) ||| (u32 val &&& u32 mask)
  if tmp ≠ orig then regmap_write s m reg tmp else s

/-! ## Clock dividers and the speed-change hook -/

def get_clk_div_sgmii (_gmac : ipq806x_gmac) (speed : Int) : Int :=
  if speed = SPEED_1000 then NSS_COMMON_CLK_DIV_SGMII_1000
  else if speed = SPEED_100 then NSS_COMMON_CLK_DIV_SGMII_100
  else if speed = SPEED_10 then NSS_COMMON_CLK_DIV_SGMII_10
  else -EINVAL

def get_clk_div_rgmii (_gmac : ipq806x_gmac) (speed : Int) : Int :=
  if speed = SPEED_1000 then NSS_COMMON_CLK_DIV_RGMII_1000
  else if speed = SPEED_100 then NSS_COMMON_CLK_DIV_RGMII_100
  else if speed = SPEED_10 then NSS_COMMON_CLK_DIV_RGMII_10
  else -EINVAL

/-- The first `switch` of `ipq806x_gmac_set_speed`: the divider and the pair of
gate bits for the PHY mode, or `none` for the `default:` branch. -/
def set_speed_select (gmac : ipq806x_gmac) (speed : Int) : Option (Int × Nat) :=
  match gmac.phy_mode with
  | .RGMII | .RGMII_ID | .RGMII_RXID | .RGMII_TXID =>
    some (get_clk_div_rgmii gmac speed,
      u32 (NSS_COMMON_CLK_GATE_RGMII_RX_EN gmac.id ||| NSS_COMMON_CLK_GATE_RGMII_TX_EN gmac.id))
  | .SGMII =>
    some (get_clk_div_sgmii gmac speed,
      u32 (NSS_COMMON_CLK_GATE_GMII_RX_EN gmac.id ||| NSS_COMMON_CLK_GATE_GMII_TX_EN gmac.id))
  | _ => none

def ipq806x_gmac_set_speed (gmac : ipq806x_gmac) (speed : Int) (s : hw) : Int × hw :=
  match set_speed_select gmac speed with
  | none => (-EINVAL, s)
  | some (div, clk_bits) =>
    -- Disable the clocks
    let val := regmap_read s .nss_common NSS_COMMON_CLK_GATE
    let val := val &&& not32 clk_bits
    let s := regmap_write s .nss_common NSS_COMMON_CLK_GATE val
    -- Set the divider
    let val := regmap_read s .nss_common NSS_COMMON_CLK_DIV0
    let val := val &&& not32 (NSS_COMMON_CLK_DIV_MASK <<< NSS_COMMON_CLK_DIV_OFFSET gmac.id)
    let val := val ||| int_shl32 div (NSS_COMMON_CLK_DIV_OFFSET gmac.id)
    let s := regmap_write s .nss_common NSS_COMMON_CLK_DIV0 val
    -- Enable the clock back
    let val := regmap_read s .nss_common NSS_COMMON_CLK_GATE
    let val := val ||| clk_bits
    let s := regmap_write s .nss_common NSS_COMMON_CLK_GATE val
    (0, s)

/-- The hook registered as `set_clk_tx_rate` with the stmmac core. -/
def ipq806x_gmac_set_clk_tx_rate (bsp_priv : ipq806x_gmac) (speed : Int) (s : hw) : Int × hw :=
  ipq806x_gmac_set_speed bsp_priv speed s

/-! ## Device description and bring-up -/

/-- What the platform answers to the driver during `probe`: the results of the
calls into the device tree, the clock framework, the syscon lookup, the SoC
matcher and the generic stmmac core. An error field is 0 on success and the
negative errno otherwise. -/
structure platform_device where
  /-- return value of `stmmac_get_platform_resources` -/
  resources_ret : Int
  /-- the `PTR_ERR` of `devm_stmmac_probe_config_dt`, 0 for a valid pointer -/
  plat_dat_err : Int
  /-- whether `devm_kzalloc` returned memory -/
  kzalloc_ok : Bool
  /-- the field `plat_dat->phy_interface` -/
  phy_interface : phy_interface_t
  /-- the cell of the property "qcom,id", `none` when the read fails -/
  qcom_id : Option Nat
  /-- the `PTR_ERR` of `devm_clk_get(dev, "stmmaceth")`, 0 for a valid clock -/
  core_clk_err : Int
  /-- the `PTR_ERR` of the syscon lookup of "qcom,nss-common", 0 when found -/
  nss_common_err : Int
  /-- the `PTR_ERR` of the syscon lookup of "qcom,qsgmii-csr", 0 when found -/
  qsgmii_csr_err : Int
  /-- result of `of_phy_is_fixed_link` -/
  is_fixed_link : Bool
  /-- return value of reading "speed" in the fixed-link node -/
  fixed_link_speed_ret : Int
  /-- the cell read from "speed" in the fixed-link node -/
  fixed_link_speed : Nat
  /-- whether `soc_device_match(ipq806x_gmac_soc_v1)` finds revision "1.*" -/
  soc_v1 : Bool
  /-- return value of `stmmac_dvr_probe` -/
  dvr_probe_ret : Int

/-- The value of a `u32` cell read through an `int` lvalue. -/
def u32_to_int (x : Nat) : Int :=
  if u32 x < 2 ^ 31 then (u32 x : Int) else (u32 x : Int) - 2 ^ 32

def ipq806x_gmac_of_parse (pdev : platform_device) (s : hw) : Int × ipq806x_gmac × hw :=
  let phy_mode := pdev.phy_interface
  match pdev.qcom_id with
  | none => (-EINVAL, ⟨0, phy_mode⟩, s)
  | some cell =>
    let id := u32 cell
    let gmac : ipq806x_gmac := ⟨id, phy_mode⟩
    if id > 3 then (-EINVAL, gmac, s)
    else if pdev.core_clk_err ≠ 0 then (pdev.core_clk_err, gmac, s)
    else
      let s := { s with core_clk_rate := some 266000000 }
      if pdev.nss_common_err ≠ 0 then (pdev.nss_common_err, gmac, s)
      else (pdev.qsgmii_csr_err, gmac, s)

def ipq806x_gmac_configure_qsgmii_pcs_speed (pdev : platform_device) (gmac : ipq806x_gmac)
    (s : hw) : Int × hw :=
  let write (val : Nat) : Int × hw :=
    (0, regmap_update_bits s .qsgmii_csr QSGMII_PCS_ALL_CH_CTL
      (QSGMII_PCS_CH_SPEED_MASK <<< QSGMII_PCS_CH_SPEED_SHIFT gmac.id)
      (val <<< QSGMII_PCS_CH_SPEED_SHIFT gmac.id))
  if !pdev.is_fixed_link then write 0
  else
    let ret := pdev.fixed_link_speed_ret
    let link_speed := u32_to_int pdev.fixed_link_speed
    if ret ≠ 0 then (ret, s)
    else
      let val := QSGMII_PCS_CH_SPEED_FORCE
      let val :=
        if link_speed = SPEED_1000 then val ||| QSGMII_PCS_CH_SPEED_1000
        else if link_speed = SPEED_100 then val ||| QSGMII_PCS_CH_SPEED_100
        else if link_speed = SPEED_10 then val ||| QSGMII_PCS_CH_SPEED_10
        else val
      write val

/-- The `switch (gmac->id)` of `ipq806x_gmac_configure_qsgmii_params`: the
per-instance preset, or `none` for the `default:` branch. -/
def qsgmii_param_preset (pdev : platform_device) (gmac : ipq806x_gmac) : Option Nat :=
  if gmac.id = 1 then
    let qsgmii_param :=
      if pdev.soc_v1 then
        QSGMII_PHY_TX_DRV_AMP 0xc ||| QSGMII_PHY_TX_SLEW 0x2 ||| QSGMII_PHY_DEEMPHASIS_LVL 0x2
      else
        QSGMII_PHY_TX_DRV_AMP 0xd ||| QSGMII_PHY_TX_SLEW 0x0 ||| QSGMII_PHY_DEEMPHASIS_LVL 0x0
    some (qsgmii_param ||| QSGMII_PHY_RX_DC_BIAS 0x2)
  else if gmac.id = 2 ∨ gmac.id = 3 then
    some (QSGMII_PHY_RX_DC_BIAS 0x3 ||| QSGMII_PHY_TX_DRV_AMP 0xc)
  else none

/-- The SerDes control word of `ipq806x_gmac_configure_qsgmii_params`: the
preset of the instance with the parameters common to all instances. -/
def qsgmii_param_word (pdev : platform_device) (gmac : ipq806x_gmac) : Option Nat :=
  match qsgmii_param_preset pdev gmac with
  | none => none
  | some qsgmii_param =>
    some (qsgmii_param ||| (QSGMII_PHY_CDR_EN |||
      QSGMII_PHY_RX_FRONT_EN |||
      QSGMII_PHY_RX_SIGNAL_DETECT_EN |||
      QSGMII_PHY_TX_DRIVER_EN |||
      QSGMII_PHY_QSGMII_EN |||
      QSGMII_PHY_PHASE_LOOP_GAIN 0x4 |||
      QSGMII_PHY_RX_INPUT_EQU 0x1 |||
      QSGMII_PHY_CDR_PI_SLEW 0x2))

def ipq806x_gmac_configure_qsgmii_params (pdev : platform_device) (gmac : ipq806x_gmac)
    (s : hw) : Int × hw :=
  match qsgmii_param_word pdev gmac with
  | none => (-EINVAL, s)
  | some qsgmii_param =>
    (0, regmap_write s .qsgmii_csr (QSGMII_PHY_SGMII_CTL gmac.id) qsgmii_param)

/-- The GMAC control word of `probe`, `none` for `goto err_unsupported_phy`. -/
def probe_gmac_ctl (gmac : ipq806x_gmac) : Option Nat :=
  -- Inter frame gap is set to 12
  let val := (12 <<< NSS_COMMON_GMAC_CTL_IFG_OFFSET) |||
    (12 <<< NSS_COMMON_GMAC_CTL_IFG_LIMIT_OFFSET)
  -- We also initiate an AXI low power exit request
  let val := val ||| NSS_COMMON_GMAC_CTL_CSYS_REQ
  match gmac.phy_mode with
  | .RGMII | .RGMII_ID | .RGMII_RXID | .RGMII_TXID =>
    some (val ||| NSS_COMMON_GMAC_CTL_PHY_IFACE_SEL)
  | .SGMII => some (val &&& not32 NSS_COMMON_GMAC_CTL_PHY_IFACE_SEL)
  | _ => none

/-- The clock source word of `probe` from the word read back, `none` for
`goto err_unsupported_phy`. -/
def probe_clk_src (gmac : ipq806x_gmac) (val : Nat) : Option Nat :=
  let val := val &&& not32 (1 <<< NSS_COMMON_CLK_SRC_CTRL_OFFSET gmac.id)
  match gmac.phy_mode with
  | .RGMII | .RGMII_ID | .RGMII_RXID | .RGMII_TXID =>
    some (val ||| (NSS_COMMON_CLK_SRC_CTRL_RGMII gmac.id <<<
      NSS_COMMON_CLK_SRC_CTRL_OFFSET gmac.id))
  | .SGMII =>
    some (val ||| (NSS_COMMON_CLK_SRC_CTRL_SGMII gmac.id <<<
      NSS_COMMON_CLK_SRC_CTRL_OFFSET gmac.id))
  | _ => none

/-- The clock gate word of `probe` from the word read back, `none` for
`goto err_unsupported_phy`. -/
def probe_clk_gate (gmac : ipq806x_gmac) (val : Nat) : Option Nat :=
  let val := val ||| NSS_COMMON_CLK_GATE_PTP_EN gmac.id
  match gmac.phy_mode with
  | .RGMII | .RGMII_ID | .RGMII_RXID | .RGMII_TXID =>
    some (val ||| (NSS_COMMON_CLK_GATE_RGMII_RX_EN gmac.id |||
      NSS_COMMON_CLK_GATE_RGMII_TX_EN gmac.id))
  | .SGMII =>
    some (val ||| (NSS_COMMON_CLK_GATE_GMII_RX_EN gmac.id |||
      NSS_COMMON_CLK_GATE_GMII_TX_EN gmac.id))
  | _ => none

/-- The tail of `probe`: fill in the platform data and call the stmmac core. -/
def probe_handoff (pdev : platform_device) (gmac : ipq806x_gmac) (s : hw) : Int × hw :=
  let plat_dat : plat_stmmacenet_data :=
    { has_gmac := true
      bsp_priv := gmac
      multicast_filter_bins := 0
      tx_fifo_size := 8192
      rx_fifo_size := 8192 }
  (pdev.dvr_probe_ret, { s with handoff := some plat_dat })

/-- The body of `probe` after `ipq806x_gmac_of_parse` has succeeded. -/
def probe_after_parse (pdev : platform_device) (gmac : ipq806x_gmac) (s : hw) : Int × hw :=
  let s := regmap_write s .qsgmii_csr QSGMII_PCS_CAL_LCKDT_CTL QSGMII_PCS_CAL_LCKDT_CTL_RST
  match probe_gmac_ctl gmac with
  | none => (-EINVAL, s)
  | some val =>
    let s := regmap_write s .nss_common (NSS_COMMON_GMAC_CTL gmac.id) val
    -- Configure the clock src according to the mode
    match probe_clk_src gmac (regmap_read s .nss_common NSS_COMMON_CLK_SRC_CTRL) with
    | none => (-EINVAL, s)
    | some val =>
      let s := regmap_write s .nss_common NSS_COMMON_CLK_SRC_CTRL val
      -- Enable PTP clock
      match probe_clk_gate gmac (regmap_read s .nss_common NSS_COMMON_CLK_GATE) with
      | none => (-EINVAL, s)
      | some val =>
        let s := regmap_write s .nss_common NSS_COMMON_CLK_GATE val
        if gmac.phy_mode = .SGMII then
          match ipq806x_gmac_configure_qsgmii_params pdev gmac s with
          | (err, s) =>
            if err ≠ 0 then (err, s)
            else
              match ipq806x_gmac_configure_qsgmii_pcs_speed pdev gmac s with
              | (err, s) =>
                if err ≠ 0 then (err, s)
                else probe_handoff pdev gmac s
        else probe_handoff pdev gmac s

def ipq806x_gmac_probe (pdev : platform_device) (s : hw) : Int × hw :=
  if pdev.resources_ret ≠ 0 then (pdev.resources_ret, s)
  else if pdev.plat_dat_err ≠ 0 then (pdev.plat_dat_err, s)
  else if !pdev.kzalloc_ok then (-ENOMEM, s)
  else
    match ipq806x_gmac_of_parse pdev s with
    | (err, gmac, s) =>
      if err ≠ 0 then (err, s)
      else probe_after_parse pdev gmac s

/-! ## Observations used in the statements -/

/-- The writes of a log that went to one register region. -/
def writes_to (m : regmap) (l : List reg_write) : List reg_write :=
  l.filter (fun w => w.map = m)

/-- The 7-bit divider field of instance `x` in a `CLK_DIV0` word. -/
def clk_div_field (val x : Nat) : Nat :=
  (val >>> NSS_COMMON_CLK_DIV_OFFSET x) &&& NSS_COMMON_CLK_DIV_MASK

/-- The 4-bit slot of instance `x` in an all-channels control word. -/
def pcs_ch_slot (val x : Nat) : Nat :=
  (val >>> QSGMII_PCS_CH_SPEED_SHIFT x) &&& 0xf

/-- The four RGMII variants and SGMII, the modes the driver accepts. -/
def supported_mode (m : phy_interface_t) : Bool :=
  m = .RGMII || m = .RGMII_ID || m = .RGMII_RXID || m = .RGMII_TXID || m = .SGMII

/-- The four RGMII variants. -/
def rgmii_family (m : phy_interface_t) : Bool :=
  m = .RGMII || m = .RGMII_ID || m = .RGMII_RXID || m = .RGMII_TXID

/-- A state with every register of both regions holding the same word and
nothing done yet. -/
def hw_fill (nss qsgmii : Nat) : hw :=
  { nss_common := fun _ => nss
    qsgmii_csr := fun _ => qsgmii
    writes := []
    core_clk_rate := none
    handoff := none }

/-- A device description on which every platform call succeeds. -/
def pdev_ok (mode : phy_interface_t) (id : Nat) (soc_v1 : Bool) : platform_device :=
  { resources_ret := 0
    plat_dat_err := 0
    kzalloc_ok := true
    phy_interface := mode
    qcom_id := some id
    core_clk_err := 0
    nss_common_err := 0
    qsgmii_csr_err := 0
    is_fixed_link := false
    fixed_link_speed_ret := 0
    fixed_link_speed := 0
    soc_v1 := soc_v1
    dvr_probe_ret := 0 }

/-- Position of the RX gate bit of an instance: the RGMII bit for the RGMII
family, the GMII bit otherwise. -/
def gate_rx_bit (mode : phy_interface_t) (id : Nat) : Nat :=
  if rgmii_family mode then 9 + 2 * id else 4 + id

/-- Position of the TX gate bit of an instance: the RGMII bit for the RGMII
family, the GMII bit otherwise. -/
def gate_tx_bit (mode : phy_interface_t) (id : Nat) : Nat :=
  if rgmii_family mode then 8 + 2 * id else id

/-- The divider tables as the specification words them:
RGMII 1000→1, 100→9, 10→99; SGMII 1000→0, 100→4, 10→49. -/
def table_divider (mode : phy_interface_t) (speed : Int) : Nat :=
  if rgmii_family mode then
    if speed = 1000 then 1 else if speed = 100 then 9 else if speed = 10 then 99 else 0
  else
    if speed = 1000 then 0 else if speed = 100 then 4 else if speed = 10 then 49 else 0

/-- The gate word after the clocks are disabled. -/
def gate_off (s : hw) (bits : Nat) : Nat :=
  u32 (regmap_read s .nss_common NSS_COMMON_CLK_GATE &&& not32 bits)

/-- The divider word written for an instance and a divider. -/
def div_word (s : hw) (id : Nat) (div : Int) : Nat :=
  u32 ((regmap_read s .nss_common NSS_COMMON_CLK_DIV0 &&&
      not32 (NSS_COMMON_CLK_DIV_MASK <<< NSS_COMMON_CLK_DIV_OFFSET id)) |||
    int_shl32 div (NSS_COMMON_CLK_DIV_OFFSET id))

/-- The gate word after the clocks are enabled again. -/
def gate_on (s : hw) (bits : Nat) : Nat := u32 (u32 (gate_off s bits) ||| bits)

/-- The forced-speed word as the specification words it: all-zero when no
fixed link is configured, otherwise the FORCE bit (bit 1) plus the speed code
(1000 → bit 3, 100 → bit 2, 10 → none). -/
def forced_speed_word (fixed : Option Nat) : Nat :=
  match fixed with
  | none => 0
  | some speed => 2 + (if speed = 1000 then 8 else if speed = 100 then 4 else 0)

/-- The state `probe` reaches after its first four writes: the PCS reset and
the words `gw`, `sw` and `cw` for the GMAC control, clock source and clock
gate registers. -/
def probe_clocks_state (gmac : ipq806x_gmac) (s : hw) (gw sw cw : Nat) : hw :=
  regmap_write
    (regmap_write
      (regmap_write
        (regmap_write s .qsgmii_csr QSGMII_PCS_CAL_LCKDT_CTL QSGMII_PCS_CAL_LCKDT_CTL_RST)
        .nss_common (NSS_COMMON_GMAC_CTL gmac.id) gw)
      .nss_common NSS_COMMON_CLK_SRC_CTRL sw)
    .nss_common NSS_COMMON_CLK_GATE cw

/-- The SGMII block of `probe` (SerDes parameters, then PCS speed) and the
hand-off to the stmmac core that follows it. -/
def probe_sgmii_tail (pdev : platform_device) (gmac : ipq806x_gmac) (s : hw) : Int × hw :=
  match ipq806x_gmac_configure_qsgmii_params pdev gmac s with
  | (err, s) =>
    if err ≠ 0 then (err, s)
    else
      match ipq806x_gmac_configure_qsgmii_pcs_speed pdev gmac s with
      | (err, s) =>
        if err ≠ 0 then (err, s)
        else probe_handoff pdev gmac s

/-! ## Lemmas on bits and words -/

theorem testBit_BIT (n k : Nat) : (BIT n).testBit k = decide (n = k) := by
  unfold BIT
  rw [Nat.one_shiftLeft, Nat.testBit_two_pow]

theorem testBit_u32 (x k : Nat) : (u32 x).testBit k = (decide (k < 32) && x.testBit k) := by
  unfold u32
  rw [Nat.testBit_mod_two_pow]

theorem testBit_not32 (x k : Nat) : (not32 x).testBit k = (decide (k < 32) && !x.testBit k) := by
  unfold not32
  rw [Nat.testBit_xor, Nat.testBit_two_pow_sub_one, Nat.testBit_mod_two_pow]
  cases decide (k < 32) <;> cases x.testBit k <;> rfl

theorem testBit_div_mask (k : Nat) : NSS_COMMON_CLK_DIV_MASK.testBit k = decide (k < 7) := by
  have h : NSS_COMMON_CLK_DIV_MASK = 2 ^ 7 - 1 := by decide
  rw [h, Nat.testBit_two_pow_sub_one]

theorem u32_lt (x : Nat) : u32 x < 2 ^ 32 := Nat.mod_lt _ (by decide)

theorem u32_of_lt {x : Nat} (h : x < 2 ^ 32) : u32 x = x := Nat.mod_eq_of_lt h

theorem int_shl32_ofNat (d n : Nat) : int_shl32 (d : Int) n = u32 (d <<< n) := by
  unfold int_shl32 int_to_u32 u32
  rw [Nat.shiftLeft_eq]
  have : ((d : Int) * 2 ^ n) % 2 ^ 32 = (((d * 2 ^ n) % 2 ^ 32 : Nat) : Int) := by
    push_cast
    rfl
  rw [this, Int.toNat_ofNat]

theorem testBit_small {d m : Nat} (hd : d < 128) (hm : 7 ≤ m) : d.testBit m = false := by
  apply Nat.testBit_lt_two_pow
  calc d < 2 ^ 7 := hd
    _ ≤ 2 ^ m := Nat.pow_le_pow_right (by decide) hm

theorem set_speed_run (gmac : ipq806x_gmac) (speed : Int) (s : hw) (div : Int) (bits : Nat)
    (h : set_speed_select gmac speed = some (div, bits)) :
    ipq806x_gmac_set_speed gmac speed s =
      (0, { s with
        nss_common := fun r =>
          if r = NSS_COMMON_CLK_GATE then gate_on s bits
          else if r = NSS_COMMON_CLK_DIV0 then div_word s gmac.id div
          else s.nss_common r
        writes := s.writes ++
          [⟨.nss_common, NSS_COMMON_CLK_GATE, gate_off s bits⟩,
           ⟨.nss_common, NSS_COMMON_CLK_DIV0, div_word s gmac.id div⟩,
           ⟨.nss_common, NSS_COMMON_CLK_GATE, gate_on s bits⟩] }) := by
  unfold ipq806x_gmac_set_speed
  rw [h]
  simp only [regmap_write, regmap_read, hw.regs, gate_on, gate_off, div_word,
    NSS_COMMON_CLK_GATE, NSS_COMMON_CLK_DIV0]
  simp
  funext r
  by_cases h8 : r = 8
  · simp [h8]
  · simp [h8]


theorem testBit_regmap_read (s : hw) (m : regmap) (reg k : Nat) :
    (regmap_read s m reg).testBit k = (decide (k < 32) && (s.regs m reg).testBit k) := by
  unfold regmap_read
  rw [testBit_u32]

theorem testBit_gate_off (s : hw) (bits k : Nat) :
    (gate_off s bits).testBit k =
      ((regmap_read s .nss_common NSS_COMMON_CLK_GATE).testBit k && !bits.testBit k) := by
  unfold gate_off
  rw [testBit_u32, Nat.testBit_and, testBit_not32, testBit_regmap_read]
  cases decide (k < 32) <;> cases bits.testBit k <;> simp

theorem testBit_gate_on (s : hw) (bits k : Nat) :
    (gate_on s bits).testBit k =
      (decide (k < 32) &&
        (bits.testBit k || (regmap_read s .nss_common NSS_COMMON_CLK_GATE).testBit k)) := by
  unfold gate_on
  rw [testBit_u32, Nat.testBit_or, testBit_u32, testBit_gate_off, testBit_regmap_read]
  cases decide (k < 32) <;> cases bits.testBit k <;> simp

theorem testBit_div_word (s : hw) (id d k : Nat) (hd : d < 128) :
    (div_word s id (d : Int)).testBit k =
      if id * 8 ≤ k ∧ k < id * 8 + 7 then (decide (k < 32) && d.testBit (k - id * 8))
      else (regmap_read s .nss_common NSS_COMMON_CLK_DIV0).testBit k := by
  unfold div_word
  rw [int_shl32_ofNat, testBit_u32, Nat.testBit_or, Nat.testBit_and, testBit_not32, testBit_u32,
    Nat.testBit_shiftLeft, Nat.testBit_shiftLeft, testBit_div_mask, testBit_regmap_read]
  unfold NSS_COMMON_CLK_DIV_OFFSET
  by_cases h1 : id * 8 ≤ k
  · by_cases h2 : k < id * 8 + 7
    · have h3 : k - id * 8 < 7 := by omega
      simp [h1, h2, h3]
    · have h3 : ¬ (k - id * 8 < 7) := by omega
      have h4 : d.testBit (k - id * 8) = false := testBit_small hd (by omega)
      by_cases hk : k < 32 <;> simp [h1, h2, h3, h4, hk]
  · have h1b : ¬ (k ≥ id * 8) := h1
    by_cases hk : k < 32 <;> simp [h1, h1b, hk]

theorem clk_div_field_div_word (s : hw) (id d : Nat) (hd : d < 128) (hid : id ≤ 3) :
    clk_div_field (div_word s id (d : Int)) id = d := by
  apply Nat.eq_of_testBit_eq
  intro k
  unfold clk_div_field
  rw [Nat.testBit_and, Nat.testBit_shiftRight, testBit_div_mask, testBit_div_word s id d _ hd]
  unfold NSS_COMMON_CLK_DIV_OFFSET
  by_cases h : k < 7
  · have h32 : id * 8 + k < 32 := by omega
    simp [h, h32]
  · have h4 : d.testBit k = false := testBit_small hd (by omega)
    simp [h, h4]

theorem clk_div_field_other (s : hw) (id j d : Nat) (hd : d < 128) (hij : j ≠ id) :
    clk_div_field (div_word s id (d : Int)) j =
      clk_div_field (regmap_read s .nss_common NSS_COMMON_CLK_DIV0) j := by
  apply Nat.eq_of_testBit_eq
  intro k
  unfold clk_div_field
  rw [Nat.testBit_and, Nat.testBit_and, Nat.testBit_shiftRight, Nat.testBit_shiftRight,
    testBit_div_mask, testBit_div_word s id d _ hd]
  unfold NSS_COMMON_CLK_DIV_OFFSET
  by_cases h : k < 7
  · have h2 : ¬ (id * 8 ≤ j * 8 + k ∧ j * 8 + k < id * 8 + 7) := by omega
    simp [h, h2]
  · simp [h]


theorem table_divider_lt (mode : phy_interface_t) (speed : Int) : table_divider mode speed < 128 := by
  unfold table_divider
  split_ifs <;> decide

theorem set_speed_select_supported (id : Nat) (mode : phy_interface_t) (speed : Int)
    (hm : supported_mode mode = true) (hs : speed = 10 ∨ speed = 100 ∨ speed = 1000) :
    set_speed_select ⟨id, mode⟩ speed =
      some ((table_divider mode speed : Int),
        u32 (BIT (gate_rx_bit mode id) ||| BIT (gate_tx_bit mode id))) := by
  cases mode <;> simp [supported_mode] at hm <;>
    rcases hs with h | h | h <;> subst h <;>
    simp [set_speed_select, table_divider, rgmii_family, gate_rx_bit, gate_tx_bit,
      get_clk_div_rgmii, get_clk_div_sgmii, SPEED_10, SPEED_100, SPEED_1000,
      NSS_COMMON_CLK_DIV_RGMII_10, NSS_COMMON_CLK_DIV_RGMII_100, NSS_COMMON_CLK_DIV_RGMII_1000,
      NSS_COMMON_CLK_DIV_SGMII_10, NSS_COMMON_CLK_DIV_SGMII_100, NSS_COMMON_CLK_DIV_SGMII_1000,
      NSS_COMMON_CLK_GATE_RGMII_RX_EN, NSS_COMMON_CLK_GATE_RGMII_TX_EN,
      NSS_COMMON_CLK_GATE_GMII_RX_EN, NSS_COMMON_CLK_GATE_GMII_TX_EN, Nat.mul_comm]

theorem gate_bits_lt (mode : phy_interface_t) (id : Nat) (hid : id ≤ 3) :
    gate_rx_bit mode id < 16 ∧ gate_tx_bit mode id < 16 := by
  unfold gate_rx_bit gate_tx_bit
  split_ifs <;> omega

theorem testBit_gate_bits (mode : phy_interface_t) (id k : Nat) (hid : id ≤ 3) :
    (u32 (BIT (gate_rx_bit mode id) ||| BIT (gate_tx_bit mode id))).testBit k =
      decide (k = gate_rx_bit mode id ∨ k = gate_tx_bit mode id) := by
  have h := gate_bits_lt mode id hid
  rw [testBit_u32, Nat.testBit_or, testBit_BIT, testBit_BIT]
  by_cases h1 : k = gate_rx_bit mode id
  · have : k < 32 := by omega
    simp [h1, this]
    omega
  · by_cases h2 : k = gate_tx_bit mode id
    · have : k < 32 := by omega
      simp [h2, this]
      omega
    · have h1b : ¬ gate_rx_bit mode id = k := fun h => h1 h.symm
      have h2b : ¬ gate_tx_bit mode id = k := fun h => h2 h.symm
      simp [h1, h2, h1b, h2b]

/-! ## The speed-change hook -/

/-- C1: for the speeds 1000, 100 and 10 the RGMII divider lookup returns 1, 9
and 99 and the SGMII divider lookup returns 0, 4 and 49, whatever the MAC
instance; the speed-change hook takes the RGMII lookup for each of the four
RGMII modes and the SGMII lookup for SGMII. -/
theorem clk_div_tables (gmac : ipq806x_gmac) (id : Nat) (speed : Int) :
    get_clk_div_rgmii gmac 1000 = 1 ∧ get_clk_div_rgmii gmac 100 = 9 ∧
    get_clk_div_rgmii gmac 10 = 99 ∧
    get_clk_div_sgmii gmac 1000 = 0 ∧ get_clk_div_sgmii gmac 100 = 4 ∧
    get_clk_div_sgmii gmac 10 = 49 ∧
    (set_speed_select ⟨id, .RGMII⟩ speed).map Prod.fst =
      some (get_clk_div_rgmii ⟨id, .RGMII⟩ speed) ∧
    (set_speed_select ⟨id, .RGMII_ID⟩ speed).map Prod.fst =
      some (get_clk_div_rgmii ⟨id, .RGMII_ID⟩ speed) ∧
    (set_speed_select ⟨id, .RGMII_RXID⟩ speed).map Prod.fst =
      some (get_clk_div_rgmii ⟨id, .RGMII_RXID⟩ speed) ∧
    (set_speed_select ⟨id, .RGMII_TXID⟩ speed).map Prod.fst =
      some (get_clk_div_rgmii ⟨id, .RGMII_TXID⟩ speed) ∧
    (set_speed_select ⟨id, .SGMII⟩ speed).map Prod.fst =
      some (get_clk_div_sgmii ⟨id, .SGMII⟩ speed) :=
  ⟨rfl, rfl, rfl, rfl, rfl, rfl, rfl, rfl, rfl, rfl, rfl⟩

/-- C3: for a supported mode, a speed among 10, 100, 1000 and an instance id
at most 3, the speed-change hook returns 0 and appends exactly three writes on
nss-common to the log: CLK_GATE (0x8) with the RX and TX gate bits of the
instance cleared and every other bit as read, CLK_DIV0 (0xC) with the 7-bit
field of the instance equal to the table divider and every bit outside the
field as read, and CLK_GATE with the two gate bits set and every other bit as
read. -/
theorem set_speed_three_writes (gmac : ipq806x_gmac) (speed : Int) (s : hw)
    (hm : supported_mode gmac.phy_mode = true)
    (hs : speed = 10 ∨ speed = 100 ∨ speed = 1000) (hid : gmac.id ≤ 3) :
    (ipq806x_gmac_set_speed gmac speed s).1 = 0 ∧
    ∃ v1 v2 v3 : Nat,
      (ipq806x_gmac_set_speed gmac speed s).2.writes =
        s.writes ++ [⟨.nss_common, 0x8, v1⟩, ⟨.nss_common, 0xC, v2⟩, ⟨.nss_common, 0x8, v3⟩] ∧
      (∀ k, v1.testBit k =
        (decide (k ≠ gate_rx_bit gmac.phy_mode gmac.id ∧ k ≠ gate_tx_bit gmac.phy_mode gmac.id) &&
          (regmap_read s .nss_common 0x8).testBit k)) ∧
      clk_div_field v2 gmac.id = table_divider gmac.phy_mode speed ∧
      (∀ k, ¬ (8 * gmac.id ≤ k ∧ k < 8 * gmac.id + 7) →
        v2.testBit k = (regmap_read s .nss_common 0xC).testBit k) ∧
      (∀ k, v3.testBit k =
        (decide (k = gate_rx_bit gmac.phy_mode gmac.id ∨ k = gate_tx_bit gmac.phy_mode gmac.id) ||
          (regmap_read s .nss_common 0x8).testBit k)) := by
  obtain ⟨id, mode⟩ := gmac
  simp only at hm hid ⊢
  have hsel := set_speed_select_supported id mode speed hm hs
  have hlt := table_divider_lt mode speed
  have hb := gate_bits_lt mode id hid
  rw [set_speed_run _ _ _ _ _ hsel]
  refine ⟨rfl, _, _, _, rfl, ?_, ?_, ?_, ?_⟩
  · intro k
    rw [testBit_gate_off, testBit_gate_bits mode id k hid]
    show _ = (_ && (regmap_read s .nss_common NSS_COMMON_CLK_GATE).testBit k)
    by_cases h : k = gate_rx_bit mode id ∨ k = gate_tx_bit mode id
    · have h2 : ¬ (k ≠ gate_rx_bit mode id ∧ k ≠ gate_tx_bit mode id) := by tauto
      simp [h, h2]
    · have h2 : k ≠ gate_rx_bit mode id ∧ k ≠ gate_tx_bit mode id := by tauto
      simp [h, h2]
  · exact clk_div_field_div_word s id _ hlt hid
  · intro k hk
    rw [testBit_div_word s id _ k hlt]
    have h2 : ¬ (id * 8 ≤ k ∧ k < id * 8 + 7) := by omega
    rw [if_neg h2]
    rfl
  · intro k
    rw [testBit_gate_on, testBit_gate_bits mode id k hid, testBit_regmap_read]
    show _ = (_ || (regmap_read s .nss_common NSS_COMMON_CLK_GATE).testBit k)
    rw [testBit_regmap_read]
    by_cases h : k = gate_rx_bit mode id ∨ k = gate_tx_bit mode id
    · have h32 : k < 32 := by omega
      simp [h, h32]
    · by_cases h32 : k < 32 <;> simp [h, h32]

/-- Witness of C3: mode RGMII, speed 1000, instance 2 on a gate and divider
register holding all ones. -/
theorem set_speed_three_writes_witness :
    supported_mode .RGMII = true ∧ ((1000 : Int) = 10 ∨ (1000 : Int) = 100 ∨ (1000 : Int) = 1000) ∧
    2 ≤ 3 ∧
    (ipq806x_gmac_set_speed ⟨2, .RGMII⟩ 1000 (hw_fill 0xFFFFFFFF 0)).1 = 0 ∧
    ∃ v1 v2 v3 : Nat,
      (ipq806x_gmac_set_speed ⟨2, .RGMII⟩ 1000 (hw_fill 0xFFFFFFFF 0)).2.writes =
        [] ++ [⟨.nss_common, 0x8, v1⟩, ⟨.nss_common, 0xC, v2⟩, ⟨.nss_common, 0x8, v3⟩] ∧
      (∀ k, v1.testBit k =
        (decide (k ≠ 13 ∧ k ≠ 12) &&
          (regmap_read (hw_fill 0xFFFFFFFF 0) .nss_common 0x8).testBit k)) ∧
      clk_div_field v2 2 = 1 ∧
      (∀ k, ¬ (8 * 2 ≤ k ∧ k < 8 * 2 + 7) →
        v2.testBit k = (regmap_read (hw_fill 0xFFFFFFFF 0) .nss_common 0xC).testBit k) ∧
      (∀ k, v3.testBit k =
        (decide (k = 13 ∨ k = 12) ||
          (regmap_read (hw_fill 0xFFFFFFFF 0) .nss_common 0x8).testBit k)) :=
  ⟨by decide, by decide, by decide,
    set_speed_three_writes ⟨2, .RGMII⟩ 1000 (hw_fill 0xFFFFFFFF 0) (by decide) (by decide)
      (by decide)⟩

/-- C2 (behaviour of the code at an unsupported speed): with mode RGMII,
instance 0 and speed 2500 on cleared registers the hook returns 0, writes the
two's complement image of -EINVAL into CLK_DIV0 and sets the gate bits again. -/
theorem set_speed_unsupported_speed_run :
    get_clk_div_rgmii ⟨0, .RGMII⟩ 2500 = -22 ∧
    (ipq806x_gmac_set_speed ⟨0, .RGMII⟩ 2500 (hw_fill 0 0)).1 = 0 ∧
    (ipq806x_gmac_set_speed ⟨0, .RGMII⟩ 2500 (hw_fill 0 0)).2.writes =
      [⟨.nss_common, 0x8, 0⟩, ⟨.nss_common, 0xC, 0xFFFFFFEA⟩, ⟨.nss_common, 0x8, 0x300⟩] ∧
    regmap_read (ipq806x_gmac_set_speed ⟨0, .RGMII⟩ 2500 (hw_fill 0 0)).2 .nss_common
      NSS_COMMON_CLK_DIV0 = 0xFFFFFFEA := by
  decide

/-- C5: for an interface mode other than the four RGMII variants and SGMII the
speed-change hook returns the error -EINVAL and leaves the state, its write log
included, exactly as it was. -/
theorem set_speed_unsupported_mode (gmac : ipq806x_gmac) (speed : Int) (s : hw)
    (hm : supported_mode gmac.phy_mode = false) :
    (ipq806x_gmac_set_speed gmac speed s).1 = -EINVAL ∧
    (ipq806x_gmac_set_speed gmac speed s).1 ≠ 0 ∧
    (ipq806x_gmac_set_speed gmac speed s).2 = s := by
  obtain ⟨id, mode⟩ := gmac
  cases mode <;> simp [supported_mode] at hm <;>
    simp [ipq806x_gmac_set_speed, set_speed_select, EINVAL]

/-- Witness of C5: mode MII on instance 1. -/
theorem set_speed_unsupported_mode_witness :
    supported_mode .MII = false ∧
    (ipq806x_gmac_set_speed ⟨1, .MII⟩ 1000 (hw_fill 0 0)).1 = -EINVAL ∧
    (ipq806x_gmac_set_speed ⟨1, .MII⟩ 1000 (hw_fill 0 0)).1 ≠ 0 ∧
    (ipq806x_gmac_set_speed ⟨1, .MII⟩ 1000 (hw_fill 0 0)).2 = hw_fill 0 0 :=
  ⟨by decide, set_speed_unsupported_mode ⟨1, .MII⟩ 1000 (hw_fill 0 0) (by decide)⟩

theorem set_speed_read_gate (gmac : ipq806x_gmac) (speed : Int) (s : hw) (div : Int) (bits : Nat)
    (h : set_speed_select gmac speed = some (div, bits)) :
    regmap_read (ipq806x_gmac_set_speed gmac speed s).2 .nss_common NSS_COMMON_CLK_GATE =
      gate_on s bits := by
  rw [set_speed_run _ _ _ _ _ h]
  simp only [regmap_read, hw.regs, if_true]
  exact u32_of_lt (u32_lt _)

theorem set_speed_read_div (gmac : ipq806x_gmac) (speed : Int) (s : hw) (div : Int) (bits : Nat)
    (h : set_speed_select gmac speed = some (div, bits)) :
    regmap_read (ipq806x_gmac_set_speed gmac speed s).2 .nss_common NSS_COMMON_CLK_DIV0 =
      div_word s gmac.id div := by
  rw [set_speed_run _ _ _ _ _ h]
  have h1 : ¬ (NSS_COMMON_CLK_DIV0 = NSS_COMMON_CLK_GATE) := by decide
  simp only [regmap_read, hw.regs, if_true, if_neg h1]
  exact u32_of_lt (u32_lt _)

/-- C4: a successful speed change on instance i leaves unchanged the 7-bit
divider field of every other instance j, the RGMII and GMII RX/TX gate bits of
instance j and the four PTP enable bits (16 to 19) of CLK_GATE; the divider
field of instance i then reads back the table divider, which fits in the 0x7f
mask. -/
theorem set_speed_frame (gmac : ipq806x_gmac) (speed : Int) (s : hw) (j : Nat)
    (hm : supported_mode gmac.phy_mode = true)
    (hs : speed = 10 ∨ speed = 100 ∨ speed = 1000) (hid : gmac.id ≤ 3)
    (hj : j ≤ 3) (hij : j ≠ gmac.id) :
    (ipq806x_gmac_set_speed gmac speed s).1 = 0 ∧
    clk_div_field
        (regmap_read (ipq806x_gmac_set_speed gmac speed s).2 .nss_common NSS_COMMON_CLK_DIV0) j =
      clk_div_field (regmap_read s .nss_common NSS_COMMON_CLK_DIV0) j ∧
    (∀ b ∈ [9 + 2 * j, 8 + 2 * j, 4 + j, j, 16, 17, 18, 19],
      (regmap_read (ipq806x_gmac_set_speed gmac speed s).2 .nss_common
          NSS_COMMON_CLK_GATE).testBit b =
        (regmap_read s .nss_common NSS_COMMON_CLK_GATE).testBit b) ∧
    clk_div_field
        (regmap_read (ipq806x_gmac_set_speed gmac speed s).2 .nss_common NSS_COMMON_CLK_DIV0)
        gmac.id =
      table_divider gmac.phy_mode speed ∧
    table_divider gmac.phy_mode speed ≤ NSS_COMMON_CLK_DIV_MASK := by
  obtain ⟨id, mode⟩ := gmac
  simp only at hm hid hij ⊢
  have hsel := set_speed_select_supported id mode speed hm hs
  have hlt := table_divider_lt mode speed
  rw [set_speed_read_gate _ _ _ _ _ hsel, set_speed_read_div _ _ _ _ _ hsel]
  refine ⟨?_, clk_div_field_other s id j _ hlt hij, ?_,
    clk_div_field_div_word s id _ hlt hid, ?_⟩
  · rw [set_speed_run _ _ _ _ _ hsel]
  · intro b hb
    rw [testBit_gate_on, testBit_gate_bits mode id b hid]
    have hb32 : b < 32 := by
      simp only [List.mem_cons, List.mem_singleton, List.not_mem_nil, or_false] at hb
      omega
    have hne : ¬ (b = gate_rx_bit mode id ∨ b = gate_tx_bit mode id) := by
      simp only [List.mem_cons, List.mem_singleton, List.not_mem_nil, or_false] at hb
      unfold gate_rx_bit gate_tx_bit
      split_ifs <;> omega
    simp [hb32, hne]
  · have : NSS_COMMON_CLK_DIV_MASK = 127 := rfl
    omega

/-- Witness of C4: mode SGMII, speed 100, instance 1 seen from instance 3. -/
theorem set_speed_frame_witness :
    supported_mode .SGMII = true ∧ ((100 : Int) = 10 ∨ (100 : Int) = 100 ∨ (100 : Int) = 1000) ∧
    1 ≤ 3 ∧ 3 ≤ 3 ∧ 3 ≠ 1 ∧
    (ipq806x_gmac_set_speed ⟨1, .SGMII⟩ 100 (hw_fill 0xA5A5A5A5 0)).1 = 0 ∧
    clk_div_field
        (regmap_read (ipq806x_gmac_set_speed ⟨1, .SGMII⟩ 100 (hw_fill 0xA5A5A5A5 0)).2
          .nss_common NSS_COMMON_CLK_DIV0) 3 =
      clk_div_field (regmap_read (hw_fill 0xA5A5A5A5 0) .nss_common NSS_COMMON_CLK_DIV0) 3 ∧
    (∀ b ∈ [9 + 2 * 3, 8 + 2 * 3, 4 + 3, 3, 16, 17, 18, 19],
      (regmap_read (ipq806x_gmac_set_speed ⟨1, .SGMII⟩ 100 (hw_fill 0xA5A5A5A5 0)).2
          .nss_common NSS_COMMON_CLK_GATE).testBit b =
        (regmap_read (hw_fill 0xA5A5A5A5 0) .nss_common NSS_COMMON_CLK_GATE).testBit b) ∧
    clk_div_field
        (regmap_read (ipq806x_gmac_set_speed ⟨1, .SGMII⟩ 100 (hw_fill 0xA5A5A5A5 0)).2
          .nss_common NSS_COMMON_CLK_DIV0) 1 = 4 ∧
    4 ≤ NSS_COMMON_CLK_DIV_MASK :=
  ⟨by decide, by decide, by decide, by decide, by decide,
    set_speed_frame ⟨1, .SGMII⟩ 100 (hw_fill 0xA5A5A5A5 0) 3 (by decide) (by decide) (by decide)
      (by decide) (by decide)⟩

theorem gate_on_idem (s s1 : hw) (bits : Nat)
    (h : regmap_read s1 .nss_common NSS_COMMON_CLK_GATE = gate_on s bits) :
    gate_on s1 bits = gate_on s bits := by
  apply Nat.eq_of_testBit_eq
  intro k
  rw [testBit_gate_on, h, testBit_gate_on]
  cases decide (k < 32) <;> cases bits.testBit k <;> simp

theorem div_word_idem (s s1 : hw) (id d : Nat) (hd : d < 128)
    (h : regmap_read s1 .nss_common NSS_COMMON_CLK_DIV0 = div_word s id (d : Int)) :
    div_word s1 id (d : Int) = div_word s id (d : Int) := by
  apply Nat.eq_of_testBit_eq
  intro k
  rw [testBit_div_word s1 id d k hd, h, testBit_div_word s id d k hd]
  split_ifs <;> rfl

/-- C6: the speed-change hook is idempotent on the registers: for a supported
mode, a speed among 10, 100, 1000 and an instance id at most 3, both calls
return 0 and the second call leaves nss-common (CLK_GATE and CLK_DIV0 with it)
and qsgmii-csr with exactly the contents the first call left. -/
theorem set_speed_idempotent (gmac : ipq806x_gmac) (speed : Int) (s : hw)
    (hm : supported_mode gmac.phy_mode = true)
    (hs : speed = 10 ∨ speed = 100 ∨ speed = 1000) (hid : gmac.id ≤ 3) :
    (ipq806x_gmac_set_speed gmac speed s).1 = 0 ∧
    (ipq806x_gmac_set_speed gmac speed (ipq806x_gmac_set_speed gmac speed s).2).1 = 0 ∧
    (ipq806x_gmac_set_speed gmac speed (ipq806x_gmac_set_speed gmac speed s).2).2.nss_common =
      (ipq806x_gmac_set_speed gmac speed s).2.nss_common ∧
    (ipq806x_gmac_set_speed gmac speed (ipq806x_gmac_set_speed gmac speed s).2).2.qsgmii_csr =
      (ipq806x_gmac_set_speed gmac speed s).2.qsgmii_csr := by
  obtain ⟨id, mode⟩ := gmac
  simp only at hm hid ⊢
  have hsel := set_speed_select_supported id mode speed hm hs
  have hlt := table_divider_lt mode speed
  have hg := set_speed_read_gate _ _ s _ _ hsel
  have hd := set_speed_read_div _ _ s _ _ hsel
  have e1 := gate_on_idem s _ _ hg
  have e2 := div_word_idem s _ id _ hlt hd
  rw [set_speed_run _ _ (ipq806x_gmac_set_speed ⟨id, mode⟩ speed s).2 _ _ hsel]
  simp only [e1, e2]
  rw [set_speed_run _ _ s _ _ hsel]
  refine ⟨rfl, trivial, ?_, trivial⟩
  funext r
  by_cases h1 : r = NSS_COMMON_CLK_GATE
  · simp [h1]
  · by_cases h2 : r = NSS_COMMON_CLK_DIV0
    · simp [h1, h2]
    · simp [h1, h2]

/-- Witness of C6: mode RGMII_ID, speed 10, instance 3. -/
theorem set_speed_idempotent_witness :
    supported_mode .RGMII_ID = true ∧
    ((10 : Int) = 10 ∨ (10 : Int) = 100 ∨ (10 : Int) = 1000) ∧ 3 ≤ 3 ∧
    (ipq806x_gmac_set_speed ⟨3, .RGMII_ID⟩ 10 (hw_fill 0x12345678 0)).1 = 0 ∧
    (ipq806x_gmac_set_speed ⟨3, .RGMII_ID⟩ 10
      (ipq806x_gmac_set_speed ⟨3, .RGMII_ID⟩ 10 (hw_fill 0x12345678 0)).2).1 = 0 ∧
    (ipq806x_gmac_set_speed ⟨3, .RGMII_ID⟩ 10
      (ipq806x_gmac_set_speed ⟨3, .RGMII_ID⟩ 10 (hw_fill 0x12345678 0)).2).2.nss_common =
      (ipq806x_gmac_set_speed ⟨3, .RGMII_ID⟩ 10 (hw_fill 0x12345678 0)).2.nss_common ∧
    (ipq806x_gmac_set_speed ⟨3, .RGMII_ID⟩ 10
      (ipq806x_gmac_set_speed ⟨3, .RGMII_ID⟩ 10 (hw_fill 0x12345678 0)).2).2.qsgmii_csr =
      (ipq806x_gmac_set_speed ⟨3, .RGMII_ID⟩ 10 (hw_fill 0x12345678 0)).2.qsgmii_csr :=
  ⟨by decide, by decide, by decide,
    set_speed_idempotent ⟨3, .RGMII_ID⟩ 10 (hw_fill 0x12345678 0) (by decide) (by decide)
      (by decide)⟩

/-! ## Bring-up -/

theorem regmap_write_writes (s : hw) (m : regmap) (reg val : Nat) :
    (regmap_write s m reg val).writes = s.writes ++ [⟨m, reg, u32 val⟩] := by
  cases m <;> rfl

theorem regmap_write_handoff (s : hw) (m : regmap) (reg val : Nat) :
    (regmap_write s m reg val).handoff = s.handoff := by
  cases m <;> rfl

theorem of_parse_writes (pdev : platform_device) (s : hw) :
    (ipq806x_gmac_of_parse pdev s).2.2.writes = s.writes ∧
    (ipq806x_gmac_of_parse pdev s).2.2.handoff = s.handoff ∧
    (ipq806x_gmac_of_parse pdev s).2.1.phy_mode = pdev.phy_interface := by
  unfold ipq806x_gmac_of_parse
  cases pdev.qcom_id with
  | none => exact ⟨rfl, rfl, rfl⟩
  | some cell =>
    simp only
    split_ifs <;> exact ⟨rfl, rfl, rfl⟩

theorem probe_eq_after_parse (pdev : platform_device) (s : hw)
    (h1 : pdev.resources_ret = 0) (h2 : pdev.plat_dat_err = 0) (h3 : pdev.kzalloc_ok = true)
    (hp : (ipq806x_gmac_of_parse pdev s).1 = 0) :
    ipq806x_gmac_probe pdev s =
      probe_after_parse pdev (ipq806x_gmac_of_parse pdev s).2.1
        (ipq806x_gmac_of_parse pdev s).2.2 := by
  unfold ipq806x_gmac_probe
  simp [h1, h2, h3, hp]

theorem params_id0 (pdev : platform_device) (mode : phy_interface_t) (s : hw) :
    ipq806x_gmac_configure_qsgmii_params pdev ⟨0, mode⟩ s = (-EINVAL, s) := rfl

theorem probe_after_parse_sgmii_id0 (pdev : platform_device) (s : hw) :
    (probe_after_parse pdev ⟨0, .SGMII⟩ s).1 = -EINVAL ∧
    (probe_after_parse pdev ⟨0, .SGMII⟩ s).2.handoff = s.handoff ∧
    ∃ v1 v2 v3 : Nat, (probe_after_parse pdev ⟨0, .SGMII⟩ s).2.writes =
      s.writes ++ [⟨.qsgmii_csr, QSGMII_PCS_CAL_LCKDT_CTL, QSGMII_PCS_CAL_LCKDT_CTL_RST⟩,
        ⟨.nss_common, NSS_COMMON_GMAC_CTL 0, v1⟩, ⟨.nss_common, NSS_COMMON_CLK_SRC_CTRL, v2⟩,
        ⟨.nss_common, NSS_COMMON_CLK_GATE, v3⟩] := by
  have hne : (-EINVAL ≠ 0) = True := by decide
  simp only [probe_after_parse, probe_gmac_ctl, probe_clk_src, probe_clk_gate, params_id0,
    hne, if_true, regmap_write_writes, regmap_write_handoff, List.append_assoc,
    List.singleton_append, List.cons_append, List.nil_append]
  exact ⟨trivial, trivial, _, _, _, rfl⟩

theorem probe_after_parse_rgmii (pdev : platform_device) (id : Nat) (mode : phy_interface_t)
    (s : hw) (hm : rgmii_family mode = true) :
    (probe_after_parse pdev ⟨id, mode⟩ s).1 = pdev.dvr_probe_ret ∧
    ∃ v1 v2 v3 : Nat, (probe_after_parse pdev ⟨id, mode⟩ s).2.writes =
      s.writes ++ [⟨.qsgmii_csr, QSGMII_PCS_CAL_LCKDT_CTL, QSGMII_PCS_CAL_LCKDT_CTL_RST⟩,
        ⟨.nss_common, NSS_COMMON_GMAC_CTL id, v1⟩, ⟨.nss_common, NSS_COMMON_CLK_SRC_CTRL, v2⟩,
        ⟨.nss_common, NSS_COMMON_CLK_GATE, v3⟩] := by
  cases mode <;> simp [rgmii_family] at hm <;>
    (simp only [probe_after_parse, probe_gmac_ctl, probe_clk_src, probe_clk_gate,
      probe_handoff, regmap_write_writes, List.append_assoc,
      List.singleton_append, List.cons_append, List.nil_append, reduceCtorEq, if_false]
     exact ⟨trivial, _, _, _, rfl⟩)

/-- C7 (counterexample): bring-up of instance 0 in mode SGMII on cleared
registers fails with -EINVAL, yet its write log holds a write to qsgmii-csr,
the PCS reset at offset 0x120. -/
theorem probe_sgmii_id0_writes_qsgmii_csr :
    (ipq806x_gmac_probe (pdev_ok .SGMII 0 false) (hw_fill 0 0)).1 = -EINVAL ∧
    writes_to .qsgmii_csr (ipq806x_gmac_probe (pdev_ok .SGMII 0 false) (hw_fill 0 0)).2.writes =
      [⟨.qsgmii_csr, 0x120, 0x80000⟩] ∧
    ¬ (writes_to .qsgmii_csr
      (ipq806x_gmac_probe (pdev_ok .SGMII 0 false) (hw_fill 0 0)).2.writes = []) := by
  decide

/-- C8 (counterexample): bring-up of instance 0 in mode RGMII on cleared
registers succeeds and its write log holds a write to qsgmii-csr, the PCS
reset at offset 0x120. -/
theorem probe_rgmii_writes_qsgmii_csr :
    rgmii_family .RGMII = true ∧
    (ipq806x_gmac_probe (pdev_ok .RGMII 0 false) (hw_fill 0 0)).1 = 0 ∧
    writes_to .qsgmii_csr (ipq806x_gmac_probe (pdev_ok .RGMII 0 false) (hw_fill 0 0)).2.writes =
      [⟨.qsgmii_csr, 0x120, 0x80000⟩] ∧
    ¬ (writes_to .qsgmii_csr
      (ipq806x_gmac_probe (pdev_ok .RGMII 0 false) (hw_fill 0 0)).2.writes = []) := by
  decide

/-! ## SerDes parameters and PCS speed -/

theorem regmap_read_write_same (s : hw) (m : regmap) (reg val : Nat) :
    regmap_read (regmap_write s m reg val) m reg = u32 val := by
  cases m <;> simp [regmap_read, regmap_write, hw.regs, u32]

theorem testBit_update_bits (s : hw) (m : regmap) (reg mask val k : Nat) :
    (regmap_read (regmap_update_bits s m reg mask val) m reg).testBit k =
      (decide (k < 32) &&
        (if mask.testBit k then val.testBit k else (s.regs m reg).testBit k)) := by
  unfold regmap_update_bits
  simp only
  split_ifs with h1 h2 h2
  · rw [regmap_read_write_same, testBit_u32, Nat.testBit_or, Nat.testBit_and, Nat.testBit_and,
      testBit_not32, testBit_u32, testBit_u32, testBit_regmap_read, h2]
    cases decide (k < 32) <;> cases (s.regs m reg).testBit k <;> cases val.testBit k <;> rfl
  · rw [regmap_read_write_same, testBit_u32, Nat.testBit_or, Nat.testBit_and, Nat.testBit_and,
      testBit_not32, testBit_u32, testBit_u32, testBit_regmap_read]
    have h3 : mask.testBit k = false := by simpa using h2
    rw [h3]
    cases decide (k < 32) <;> cases (s.regs m reg).testBit k <;> cases val.testBit k <;> rfl
  · have h3 := congrArg (fun x => Nat.testBit x k) (not_not.mp h1)
    simp only [Nat.testBit_or, Nat.testBit_and, testBit_not32, testBit_u32,
      testBit_regmap_read, h2] at h3
    rw [testBit_regmap_read, ← h3]
    cases decide (k < 32) <;> cases (s.regs m reg).testBit k <;> cases val.testBit k <;> rfl
  · rw [testBit_regmap_read]

theorem testBit_speed_mask (j : Nat) :
    QSGMII_PCS_CH_SPEED_MASK.testBit j = decide (1 ≤ j ∧ j ≤ 3) := by
  unfold QSGMII_PCS_CH_SPEED_MASK QSGMII_PCS_CH_SPEED_FORCE QSGMII_PCS_CH_SPEED_10
    QSGMII_PCS_CH_SPEED_100 QSGMII_PCS_CH_SPEED_1000
  simp only [Nat.testBit_or, testBit_BIT, Nat.zero_testBit, Bool.or_false]
  by_cases h1 : 1 = j
  · simp [← h1]
  · by_cases h2 : 2 = j
    · simp [← h2]
    · by_cases h3 : 3 = j
      · simp [← h3]
      · have : ¬ (1 ≤ j ∧ j ≤ 3) := by omega
        simp [h1, h2, h3, this]

theorem pcs_speed_run (pdev : platform_device) (gmac : ipq806x_gmac) (s : hw)
    (fixed : Option Nat)
    (hcfg : (pdev.is_fixed_link = false ∧ fixed = none) ∨
      (pdev.is_fixed_link = true ∧ pdev.fixed_link_speed_ret = 0 ∧
        fixed = some pdev.fixed_link_speed ∧
        (pdev.fixed_link_speed = 10 ∨ pdev.fixed_link_speed = 100 ∨
          pdev.fixed_link_speed = 1000))) :
    ipq806x_gmac_configure_qsgmii_pcs_speed pdev gmac s =
      (0, regmap_update_bits s .qsgmii_csr QSGMII_PCS_ALL_CH_CTL
        (QSGMII_PCS_CH_SPEED_MASK <<< QSGMII_PCS_CH_SPEED_SHIFT gmac.id)
        (forced_speed_word fixed <<< QSGMII_PCS_CH_SPEED_SHIFT gmac.id)) := by
  unfold ipq806x_gmac_configure_qsgmii_pcs_speed
  rcases hcfg with ⟨h1, h2⟩ | ⟨h1, h2, h3, h4⟩
  · subst h2
    simp [h1, forced_speed_word]
  · subst h3
    rcases h4 with h | h | h <;> simp [h1, h2, h] <;> rfl

/-- C9: for instance 1 the SerDes control word written when the SoC revision
matches "1.*" is 0xC898488F and the word written otherwise is 0xD098408F; the
two differ only under the TX-drive-amplitude (31:28), TX-slew (27:26) and
de-emphasis (11:10) masks, and under the masks of the enable bits (0, 1, 2, 3,
7), phase-loop gain (14:12), RX input equalizer (21:20) and CDR PI slew (23:22)
both agree with the word 0xC09C408F written for instances 2 and 3. -/
theorem qsgmii_params_instance1_revisions (p : platform_device) (m : phy_interface_t) (s : hw) :
    ipq806x_gmac_configure_qsgmii_params { p with soc_v1 := true } ⟨1, m⟩ s =
      (0, regmap_write s .qsgmii_csr 0x134 0xC898488F) ∧
    ipq806x_gmac_configure_qsgmii_params { p with soc_v1 := false } ⟨1, m⟩ s =
      (0, regmap_write s .qsgmii_csr 0x134 0xD098408F) ∧
    ipq806x_gmac_configure_qsgmii_params p ⟨2, m⟩ s =
      (0, regmap_write s .qsgmii_csr 0x13c 0xC09C408F) ∧
    ipq806x_gmac_configure_qsgmii_params p ⟨3, m⟩ s =
      (0, regmap_write s .qsgmii_csr 0x140 0xC09C408F) ∧
    QSGMII_PHY_TX_DRV_AMP_MASK = 0xF0000000 ∧ QSGMII_PHY_TX_SLEW_MASK = 0x0C000000 ∧
    QSGMII_PHY_DEEMPHASIS_LVL_MASK = 0x00000C00 ∧
    (0xC898488F ^^^ 0xD098408F) &&&
      not32 (QSGMII_PHY_TX_DRV_AMP_MASK ||| QSGMII_PHY_TX_SLEW_MASK |||
        QSGMII_PHY_DEEMPHASIS_LVL_MASK) = 0 ∧
    0xC898488F < 2 ^ 32 ∧ 0xD098408F < 2 ^ 32 ∧
    QSGMII_PHY_CDR_EN ||| QSGMII_PHY_RX_FRONT_EN ||| QSGMII_PHY_RX_SIGNAL_DETECT_EN |||
      QSGMII_PHY_TX_DRIVER_EN ||| QSGMII_PHY_QSGMII_EN ||| QSGMII_PHY_PHASE_LOOP_GAIN_MASK |||
      QSGMII_PHY_RX_INPUT_EQU_MASK ||| QSGMII_PHY_CDR_PI_SLEW_MASK = 0x00F0708F ∧
    0xC898488F &&& 0x00F0708F = 0xC09C408F &&& 0x00F0708F ∧
    0xD098408F &&& 0x00F0708F = 0xC09C408F &&& 0x00F0708F := by
  have w1 : qsgmii_param_word { p with soc_v1 := true } ⟨1, m⟩ = some 0xC898488F := by
    simp [qsgmii_param_word, qsgmii_param_preset]
    decide
  have w0 : qsgmii_param_word { p with soc_v1 := false } ⟨1, m⟩ = some 0xD098408F := by
    simp [qsgmii_param_word, qsgmii_param_preset]
    decide
  have w2 : qsgmii_param_word p ⟨2, m⟩ = some 0xC09C408F := by
    simp [qsgmii_param_word, qsgmii_param_preset]
    decide
  have w3 : qsgmii_param_word p ⟨3, m⟩ = some 0xC09C408F := by
    simp [qsgmii_param_word, qsgmii_param_preset]
    decide
  have c1 : QSGMII_PHY_SGMII_CTL 1 = 0x134 := by decide
  have c2 : QSGMII_PHY_SGMII_CTL 2 = 0x13c := by decide
  have c3 : QSGMII_PHY_SGMII_CTL 3 = 0x140 := by decide
  refine ⟨?_, ?_, ?_, ?_, by decide, by decide, by decide, by decide, by decide, by decide,
    by decide, by decide, by decide⟩
  · simp only [ipq806x_gmac_configure_qsgmii_params, w1, c1]
  · simp only [ipq806x_gmac_configure_qsgmii_params, w0, c1]
  · simp only [ipq806x_gmac_configure_qsgmii_params, w2, c2]
  · simp only [ipq806x_gmac_configure_qsgmii_params, w3, c3]

theorem forced_speed_word_bits (fixed : Option Nat) (j : Nat) (hj : j = 0 ∨ 4 ≤ j) :
    (forced_speed_word fixed).testBit j = false := by
  have h16 : forced_speed_word fixed < 16 := by
    unfold forced_speed_word
    split
    · decide
    · split_ifs <;> decide
  have hev : forced_speed_word fixed % 2 = 0 := by
    unfold forced_speed_word
    split
    · decide
    · split_ifs <;> decide
  rcases hj with h | h
  · subst h
    simp [Nat.testBit_zero, hev]
  · apply Nat.testBit_lt_two_pow
    calc forced_speed_word fixed < 2 ^ 4 := h16
      _ ≤ 2 ^ j := Nat.pow_le_pow_right (by decide) h

/-- C10 (counterexample): with no fixed link, instance 0 and the all-channels
register holding 1, the 4-bit slot of the instance still reads 1 after the
call, not the all-zero forced-speed word. -/
theorem pcs_speed_bit0_kept :
    (pdev_ok .SGMII 0 false).is_fixed_link = false ∧
    (ipq806x_gmac_configure_qsgmii_pcs_speed (pdev_ok .SGMII 0 false) ⟨0, .SGMII⟩
      (hw_fill 0 1)).1 = 0 ∧
    pcs_ch_slot (regmap_read (ipq806x_gmac_configure_qsgmii_pcs_speed (pdev_ok .SGMII 0 false)
      ⟨0, .SGMII⟩ (hw_fill 0 1)).2 .qsgmii_csr QSGMII_PCS_ALL_CH_CTL) 0 = 1 ∧
    pcs_ch_slot (regmap_read (ipq806x_gmac_configure_qsgmii_pcs_speed (pdev_ok .SGMII 0 false)
      ⟨0, .SGMII⟩ (hw_fill 0 1)).2 .qsgmii_csr QSGMII_PCS_ALL_CH_CTL) 0 ≠
      forced_speed_word none := by
  decide

/-- C10 (amended): after the PCS speed configuration runs for an instance id at
most 3, with no fixed link or with a fixed link of speed 10, 100 or 1000, the
call returns 0 and bits 4*id+3 .. 4*id+1 of the all-channels register hold
bits 3 .. 1 of the forced-speed word (all-zero without fixed link, FORCE plus
the speed code with one); bit 4*id, the lowest bit of the slot, and every bit
outside the slot are unchanged, so the slot reads the forced-speed word ORed
with its previous lowest bit. -/
theorem pcs_speed_slot (pdev : platform_device) (gmac : ipq806x_gmac) (s : hw)
    (fixed : Option Nat) (hid : gmac.id ≤ 3)
    (hcfg : (pdev.is_fixed_link = false ∧ fixed = none) ∨
      (pdev.is_fixed_link = true ∧ pdev.fixed_link_speed_ret = 0 ∧
        fixed = some pdev.fixed_link_speed ∧
        (pdev.fixed_link_speed = 10 ∨ pdev.fixed_link_speed = 100 ∨
          pdev.fixed_link_speed = 1000))) :
    (ipq806x_gmac_configure_qsgmii_pcs_speed pdev gmac s).1 = 0 ∧
    (∀ k, (regmap_read (ipq806x_gmac_configure_qsgmii_pcs_speed pdev gmac s).2 .qsgmii_csr
        QSGMII_PCS_ALL_CH_CTL).testBit k =
      if 4 * gmac.id + 1 ≤ k ∧ k ≤ 4 * gmac.id + 3 then
        (forced_speed_word fixed).testBit (k - 4 * gmac.id)
      else (regmap_read s .qsgmii_csr QSGMII_PCS_ALL_CH_CTL).testBit k) ∧
    pcs_ch_slot (regmap_read (ipq806x_gmac_configure_qsgmii_pcs_speed pdev gmac s).2 .qsgmii_csr
        QSGMII_PCS_ALL_CH_CTL) gmac.id =
      forced_speed_word fixed |||
        (pcs_ch_slot (regmap_read s .qsgmii_csr QSGMII_PCS_ALL_CH_CTL) gmac.id &&& 1) := by
  rw [pcs_speed_run pdev gmac s fixed hcfg]
  have key : ∀ k, (regmap_read (regmap_update_bits s .qsgmii_csr QSGMII_PCS_ALL_CH_CTL
        (QSGMII_PCS_CH_SPEED_MASK <<< QSGMII_PCS_CH_SPEED_SHIFT gmac.id)
        (forced_speed_word fixed <<< QSGMII_PCS_CH_SPEED_SHIFT gmac.id)) .qsgmii_csr
        QSGMII_PCS_ALL_CH_CTL).testBit k =
      if 4 * gmac.id + 1 ≤ k ∧ k ≤ 4 * gmac.id + 3 then
        (forced_speed_word fixed).testBit (k - 4 * gmac.id)
      else (regmap_read s .qsgmii_csr QSGMII_PCS_ALL_CH_CTL).testBit k := by
    intro k
    rw [testBit_update_bits, Nat.testBit_shiftLeft, Nat.testBit_shiftLeft, testBit_speed_mask,
      testBit_regmap_read]
    unfold QSGMII_PCS_CH_SPEED_SHIFT
    rw [Nat.mul_comm gmac.id 4]
    by_cases h : 4 * gmac.id + 1 ≤ k ∧ k ≤ 4 * gmac.id + 3
    · have a1 : k ≥ 4 * gmac.id := by omega
      have a2 : 1 ≤ k - 4 * gmac.id ∧ k - 4 * gmac.id ≤ 3 := by omega
      have a3 : k < 32 := by omega
      have a5 : (decide (k ≥ 4 * gmac.id) &&
          decide (1 ≤ k - 4 * gmac.id ∧ k - 4 * gmac.id ≤ 3)) = true := by
        simp [a1, a2]
      rw [a5, if_pos rfl, if_pos h]
      simp [a1, a3]
    · have a2 : ¬ (k ≥ 4 * gmac.id ∧ (1 ≤ k - 4 * gmac.id ∧ k - 4 * gmac.id ≤ 3)) := by omega
      have a5 : (decide (k ≥ 4 * gmac.id) &&
          decide (1 ≤ k - 4 * gmac.id ∧ k - 4 * gmac.id ≤ 3)) = false := by
        simpa using a2
      rw [a5, if_neg h]
      simp
  refine ⟨rfl, key, ?_⟩
  apply Nat.eq_of_testBit_eq
  intro k
  unfold pcs_ch_slot
  have hf : (0xf : Nat).testBit k = decide (k < 4) := by
    have : (0xf : Nat) = 2 ^ 4 - 1 := by decide
    rw [this, Nat.testBit_two_pow_sub_one]
  have h1 : (1 : Nat).testBit k = decide (k = 0) := by
    have : (1 : Nat) = 2 ^ 0 := by decide
    rw [this, Nat.testBit_two_pow]
    by_cases h : k = 0
    · simp [h]
    · have h' : ¬ (0 = k) := fun e => h e.symm
      simp [h, h']
  rw [Nat.testBit_and, Nat.testBit_shiftRight, key, hf, Nat.testBit_or, Nat.testBit_and,
    Nat.testBit_and, Nat.testBit_shiftRight, hf, h1]
  unfold QSGMII_PCS_CH_SPEED_SHIFT
  rw [Nat.mul_comm gmac.id 4]
  by_cases hk0 : k = 0
  · subst hk0
    have hw := forced_speed_word_bits fixed 0 (Or.inl rfl)
    have hn : ¬ (4 * gmac.id + 1 ≤ 4 * gmac.id + 0 ∧ 4 * gmac.id + 0 ≤ 4 * gmac.id + 3) := by
      omega
    rw [if_neg hn, hw]
    simp
  · by_cases hk4 : k < 4
    · have hin : 4 * gmac.id + 1 ≤ 4 * gmac.id + k ∧ 4 * gmac.id + k ≤ 4 * gmac.id + 3 := by
        omega
      have a4 : 4 * gmac.id + k - 4 * gmac.id = k := by omega
      rw [if_pos hin, a4]
      simp [hk0, hk4]
    · have hw := forced_speed_word_bits fixed k (Or.inr (by omega))
      simp [hk4, hw]

/-- Witness of C10 (amended): a fixed link of 1000 Mbps on instance 2 with the
all-channels register holding all ones. -/
theorem pcs_speed_slot_witness :
    2 ≤ 3 ∧
    ({ pdev_ok .SGMII 2 false with is_fixed_link := true, fixed_link_speed := 1000 } :
      platform_device).is_fixed_link = true ∧
    (ipq806x_gmac_configure_qsgmii_pcs_speed
      { pdev_ok .SGMII 2 false with is_fixed_link := true, fixed_link_speed := 1000 }
      ⟨2, .SGMII⟩ (hw_fill 0 0xFFFFFFFF)).1 = 0 ∧
    (∀ k, (regmap_read (ipq806x_gmac_configure_qsgmii_pcs_speed
        { pdev_ok .SGMII 2 false with is_fixed_link := true, fixed_link_speed := 1000 }
        ⟨2, .SGMII⟩ (hw_fill 0 0xFFFFFFFF)).2 .qsgmii_csr QSGMII_PCS_ALL_CH_CTL).testBit k =
      if 4 * 2 + 1 ≤ k ∧ k ≤ 4 * 2 + 3 then
        (forced_speed_word (some 1000)).testBit (k - 4 * 2)
      else (regmap_read (hw_fill 0 0xFFFFFFFF) .qsgmii_csr QSGMII_PCS_ALL_CH_CTL).testBit k) ∧
    pcs_ch_slot (regmap_read (ipq806x_gmac_configure_qsgmii_pcs_speed
        { pdev_ok .SGMII 2 false with is_fixed_link := true, fixed_link_speed := 1000 }
        ⟨2, .SGMII⟩ (hw_fill 0 0xFFFFFFFF)).2 .qsgmii_csr QSGMII_PCS_ALL_CH_CTL) 2 =
      forced_speed_word (some 1000) |||
        (pcs_ch_slot (regmap_read (hw_fill 0 0xFFFFFFFF) .qsgmii_csr QSGMII_PCS_ALL_CH_CTL) 2
          &&& 1) :=
  ⟨by decide, rfl,
    pcs_speed_slot
      { pdev_ok .SGMII 2 false with is_fixed_link := true, fixed_link_speed := 1000 }
      ⟨2, .SGMII⟩ (hw_fill 0 0xFFFFFFFF) (some 1000) (by decide)
      (Or.inr ⟨rfl, rfl, rfl, Or.inr (Or.inr rfl)⟩)⟩

/-! ## Unsupported speeds and the per-instance SerDes write -/

theorem u32_to_int_ne (x : Nat) (c : Int) (hx : x < 2 ^ 32) (hc0 : 0 ≤ c) (hc : c < 2 ^ 31)
    (hne : (x : Int) ≠ c) : u32_to_int x ≠ c := by
  unfold u32_to_int
  rw [u32_of_lt hx]
  split_ifs with h
  · exact hne
  · have : (2 : Int) ^ 32 = 4294967296 := by norm_num
    have h31 : (2 : Int) ^ 31 = 2147483648 := by norm_num
    have hx' : (x : Int) < 4294967296 := by exact_mod_cast hx
    omega

/-- C14: for a speed outside 10, 100 and 1000 both divider lookups return
-EINVAL, which is negative and is none of the dividers 1, 9, 99, 0, 4, 49; the
speed-change hook receives this value as its divider in every supported
mode. -/
theorem clk_div_unsupported_speed (gmac : ipq806x_gmac) (id : Nat) (speed : Int)
    (h10 : speed ≠ 10) (h100 : speed ≠ 100) (h1000 : speed ≠ 1000) :
    get_clk_div_rgmii gmac speed = -EINVAL ∧ get_clk_div_sgmii gmac speed = -EINVAL ∧
    -EINVAL < 0 ∧ (-EINVAL) ∉ ([1, 9, 99, 0, 4, 49] : List Int) ∧
    ∀ mode : phy_interface_t, supported_mode mode = true →
      (set_speed_select ⟨id, mode⟩ speed).map Prod.fst = some (-EINVAL) := by
  have hr : ∀ g : ipq806x_gmac, get_clk_div_rgmii g speed = -EINVAL := by
    intro g
    simp [get_clk_div_rgmii, SPEED_10, SPEED_100, SPEED_1000, h10, h100, h1000]
  have hs : ∀ g : ipq806x_gmac, get_clk_div_sgmii g speed = -EINVAL := by
    intro g
    simp [get_clk_div_sgmii, SPEED_10, SPEED_100, SPEED_1000, h10, h100, h1000]
  refine ⟨hr gmac, hs gmac, by decide, by decide, ?_⟩
  intro mode hm
  cases mode <;> simp [supported_mode] at hm <;> simp [set_speed_select, hr, hs]

/-- Witness of C14: the speed 2500 on instance 1. -/
theorem clk_div_unsupported_speed_witness :
    (2500 : Int) ≠ 10 ∧ (2500 : Int) ≠ 100 ∧ (2500 : Int) ≠ 1000 ∧
    get_clk_div_rgmii ⟨1, .RGMII⟩ 2500 = -EINVAL ∧
    get_clk_div_sgmii ⟨1, .RGMII⟩ 2500 = -EINVAL ∧
    -EINVAL < 0 ∧ (-EINVAL) ∉ ([1, 9, 99, 0, 4, 49] : List Int) ∧
    ∀ mode : phy_interface_t, supported_mode mode = true →
      (set_speed_select ⟨1, mode⟩ 2500).map Prod.fst = some (-EINVAL) :=
  ⟨by decide, by decide, by decide,
    clk_div_unsupported_speed ⟨1, .RGMII⟩ 1 2500 (by decide) (by decide) (by decide)⟩

/-- C15: for instance 0 the analog-parameter configuration returns -EINVAL
and leaves the state, write log included, as it was, whatever the SoC
revision; for instances 1, 2 and 3 it returns 0 and appends exactly one write,
to qsgmii-csr offset 0x134, 0x13c and 0x140 respectively. -/
theorem qsgmii_params_by_instance (pdev : platform_device) (mode : phy_interface_t) (s : hw) :
    ipq806x_gmac_configure_qsgmii_params pdev ⟨0, mode⟩ s = (-EINVAL, s) ∧ -EINVAL ≠ 0 ∧
    (ipq806x_gmac_configure_qsgmii_params pdev ⟨1, mode⟩ s).1 = 0 ∧
    (ipq806x_gmac_configure_qsgmii_params pdev ⟨1, mode⟩ s).2.writes =
      s.writes ++ [⟨.qsgmii_csr, 0x134, if pdev.soc_v1 then 0xC898488F else 0xD098408F⟩] ∧
    (ipq806x_gmac_configure_qsgmii_params pdev ⟨2, mode⟩ s).1 = 0 ∧
    (ipq806x_gmac_configure_qsgmii_params pdev ⟨2, mode⟩ s).2.writes =
      s.writes ++ [⟨.qsgmii_csr, 0x13c, 0xC09C408F⟩] ∧
    (ipq806x_gmac_configure_qsgmii_params pdev ⟨3, mode⟩ s).1 = 0 ∧
    (ipq806x_gmac_configure_qsgmii_params pdev ⟨3, mode⟩ s).2.writes =
      s.writes ++ [⟨.qsgmii_csr, 0x140, 0xC09C408F⟩] := by
  have w1 : qsgmii_param_word pdev ⟨1, mode⟩ =
      some (if pdev.soc_v1 then 0xC898488F else 0xD098408F) := by
    cases h : pdev.soc_v1 <;> simp [qsgmii_param_word, qsgmii_param_preset, h] <;> decide
  have w2 : qsgmii_param_word pdev ⟨2, mode⟩ = some 0xC09C408F := by
    simp [qsgmii_param_word, qsgmii_param_preset]
    decide
  have w3 : qsgmii_param_word pdev ⟨3, mode⟩ = some 0xC09C408F := by
    simp [qsgmii_param_word, qsgmii_param_preset]
    decide
  have c1 : QSGMII_PHY_SGMII_CTL 1 = 0x134 := by decide
  have c2 : QSGMII_PHY_SGMII_CTL 2 = 0x13c := by decide
  have c3 : QSGMII_PHY_SGMII_CTL 3 = 0x140 := by decide
  refine ⟨rfl, by decide, ?_, ?_, ?_, ?_, ?_, ?_⟩
  · simp only [ipq806x_gmac_configure_qsgmii_params, w1]
  · simp only [ipq806x_gmac_configure_qsgmii_params, w1, c1, regmap_write_writes]
    cases pdev.soc_v1 <;> rfl
  · simp only [ipq806x_gmac_configure_qsgmii_params, w2]
  · simp only [ipq806x_gmac_configure_qsgmii_params, w2, c2, regmap_write_writes]
    rfl
  · simp only [ipq806x_gmac_configure_qsgmii_params, w3]
  · simp only [ipq806x_gmac_configure_qsgmii_params, w3, c3, regmap_write_writes]
    rfl

theorem pcs_speed_run_force_only (pdev : platform_device) (gmac : ipq806x_gmac) (s : hw)
    (hfl : pdev.is_fixed_link = true) (hret : pdev.fixed_link_speed_ret = 0)
    (hsp : pdev.fixed_link_speed = 10 ∨
      (pdev.fixed_link_speed < 2 ^ 32 ∧ pdev.fixed_link_speed ≠ 10 ∧
        pdev.fixed_link_speed ≠ 100 ∧ pdev.fixed_link_speed ≠ 1000)) :
    ipq806x_gmac_configure_qsgmii_pcs_speed pdev gmac s =
      (0, regmap_update_bits s .qsgmii_csr QSGMII_PCS_ALL_CH_CTL
        (QSGMII_PCS_CH_SPEED_MASK <<< QSGMII_PCS_CH_SPEED_SHIFT gmac.id)
        (QSGMII_PCS_CH_SPEED_FORCE <<< QSGMII_PCS_CH_SPEED_SHIFT gmac.id)) := by
  unfold ipq806x_gmac_configure_qsgmii_pcs_speed
  rcases hsp with h | ⟨hlt, h10, h100, h1000⟩
  · simp [hfl, hret, h]
    rfl
  · have e10 : u32_to_int pdev.fixed_link_speed ≠ SPEED_10 :=
      u32_to_int_ne _ _ hlt (by decide) (by decide)
        (by unfold SPEED_10; exact_mod_cast h10)
    have e100 : u32_to_int pdev.fixed_link_speed ≠ SPEED_100 :=
      u32_to_int_ne _ _ hlt (by decide) (by decide)
        (by unfold SPEED_100; exact_mod_cast h100)
    have e1000 : u32_to_int pdev.fixed_link_speed ≠ SPEED_1000 :=
      u32_to_int_ne _ _ hlt (by decide) (by decide)
        (by unfold SPEED_1000; exact_mod_cast h1000)
    simp [hfl, hret, e10, e100, e1000]

/-- C17: with a fixed link whose speed cell is none of 10, 100 and 1000 the
PCS speed configuration does not fail: it returns 0 and makes the same
register update as for a fixed link of 10 Mbps, which sets the FORCE bit
(bit 4*id+1) of the instance's slot, clears the two speed bits (4*id+2 and
4*id+3) and leaves every other bit of the all-channels register as it was. -/
theorem pcs_speed_fixed_link_other_speed (pdev : platform_device) (gmac : ipq806x_gmac)
    (s : hw) (hid : gmac.id ≤ 3)
    (hfl : pdev.is_fixed_link = true) (hret : pdev.fixed_link_speed_ret = 0)
    (hlt : pdev.fixed_link_speed < 2 ^ 32) (h10 : pdev.fixed_link_speed ≠ 10)
    (h100 : pdev.fixed_link_speed ≠ 100) (h1000 : pdev.fixed_link_speed ≠ 1000) :
    (ipq806x_gmac_configure_qsgmii_pcs_speed pdev gmac s).1 = 0 ∧
    ipq806x_gmac_configure_qsgmii_pcs_speed pdev gmac s =
      ipq806x_gmac_configure_qsgmii_pcs_speed { pdev with fixed_link_speed := 10 } gmac s ∧
    ∀ k, (regmap_read (ipq806x_gmac_configure_qsgmii_pcs_speed pdev gmac s).2 .qsgmii_csr
        QSGMII_PCS_ALL_CH_CTL).testBit k =
      if k = 4 * gmac.id + 1 then true
      else if k = 4 * gmac.id + 2 ∨ k = 4 * gmac.id + 3 then false
      else (regmap_read s .qsgmii_csr QSGMII_PCS_ALL_CH_CTL).testBit k := by
  have e1 := pcs_speed_run_force_only pdev gmac s hfl hret (Or.inr ⟨hlt, h10, h100, h1000⟩)
  have e2 := pcs_speed_run_force_only { pdev with fixed_link_speed := 10 } gmac s hfl hret
    (Or.inl rfl)
  rw [e2, e1]
  refine ⟨rfl, rfl, ?_⟩
  intro k
  rw [testBit_update_bits, Nat.testBit_shiftLeft, Nat.testBit_shiftLeft, testBit_speed_mask,
    testBit_regmap_read]
  unfold QSGMII_PCS_CH_SPEED_SHIFT QSGMII_PCS_CH_SPEED_FORCE
  rw [testBit_BIT, Nat.mul_comm gmac.id 4]
  by_cases h1 : k = 4 * gmac.id + 1
  · have a3 : k < 32 := by omega
    have a1 : k ≥ 4 * gmac.id := by omega
    have a2 : 1 ≤ k - 4 * gmac.id ∧ k - 4 * gmac.id ≤ 3 := by omega
    have a4 : 1 = k - 4 * gmac.id := by omega
    simp only [if_pos h1]
    simp [a1, a2, a3, ← a4]
  · by_cases h2 : k = 4 * gmac.id + 2 ∨ k = 4 * gmac.id + 3
    · have a1 : k ≥ 4 * gmac.id := by omega
      have a2 : 1 ≤ k - 4 * gmac.id ∧ k - 4 * gmac.id ≤ 3 := by omega
      have a4 : ¬ (1 = k - 4 * gmac.id) := by omega
      simp only [if_neg h1, if_pos h2]
      simp [a1, a2, a4]
    · have a2 : ¬ (k ≥ 4 * gmac.id ∧ (1 ≤ k - 4 * gmac.id ∧ k - 4 * gmac.id ≤ 3)) := by omega
      have a5 : (decide (k ≥ 4 * gmac.id) &&
          decide (1 ≤ k - 4 * gmac.id ∧ k - 4 * gmac.id ≤ 3)) = false := by
        simpa using a2
      rw [a5, if_neg h1, if_neg h2]
      simp

/-- Witness of C17: a fixed link of 2500 Mbps on instance 3. -/
theorem pcs_speed_fixed_link_other_speed_witness :
    3 ≤ 3 ∧ (2500 : Nat) < 2 ^ 32 ∧ (2500 : Nat) ≠ 10 ∧ (2500 : Nat) ≠ 100 ∧
    (2500 : Nat) ≠ 1000 ∧
    (ipq806x_gmac_configure_qsgmii_pcs_speed
      { pdev_ok .SGMII 3 false with is_fixed_link := true, fixed_link_speed := 2500 }
      ⟨3, .SGMII⟩ (hw_fill 0 0xFFFFFFFF)).1 = 0 ∧
    ipq806x_gmac_configure_qsgmii_pcs_speed
      { pdev_ok .SGMII 3 false with is_fixed_link := true, fixed_link_speed := 2500 }
      ⟨3, .SGMII⟩ (hw_fill 0 0xFFFFFFFF) =
      ipq806x_gmac_configure_qsgmii_pcs_speed
        { pdev_ok .SGMII 3 false with is_fixed_link := true, fixed_link_speed := 10 }
        ⟨3, .SGMII⟩ (hw_fill 0 0xFFFFFFFF) ∧
    ∀ k, (regmap_read (ipq806x_gmac_configure_qsgmii_pcs_speed
        { pdev_ok .SGMII 3 false with is_fixed_link := true, fixed_link_speed := 2500 }
        ⟨3, .SGMII⟩ (hw_fill 0 0xFFFFFFFF)).2 .qsgmii_csr QSGMII_PCS_ALL_CH_CTL).testBit k =
      if k = 4 * 3 + 1 then true
      else if k = 4 * 3 + 2 ∨ k = 4 * 3 + 3 then false
      else (regmap_read (hw_fill 0 0xFFFFFFFF) .qsgmii_csr QSGMII_PCS_ALL_CH_CTL).testBit k :=
  ⟨by decide, by decide, by decide, by decide, by decide,
    pcs_speed_fixed_link_other_speed
      { pdev_ok .SGMII 3 false with is_fixed_link := true, fixed_link_speed := 2500 }
      ⟨3, .SGMII⟩ (hw_fill 0 0xFFFFFFFF) (by decide) rfl rfl (by decide) (by decide)
      (by decide) (by decide)⟩

/-! ## Bring-up in the supported and the unsupported modes -/

theorem regmap_read_write_other (s : hw) (m m2 : regmap) (reg reg2 val : Nat)
    (h : m ≠ m2 ∨ reg ≠ reg2) :
    regmap_read (regmap_write s m reg val) m2 reg2 = regmap_read s m2 reg2 := by
  cases m <;> cases m2 <;> simp [regmap_read, regmap_write, hw.regs] at h ⊢
  · have h2 : ¬ reg2 = reg := fun e => h e.symm
    simp [h2]
  · have h2 : ¬ reg2 = reg := fun e => h e.symm
    simp [h2]

theorem of_parse_regs (pdev : platform_device) (s : hw) :
    (ipq806x_gmac_of_parse pdev s).2.2.nss_common = s.nss_common ∧
    (ipq806x_gmac_of_parse pdev s).2.2.qsgmii_csr = s.qsgmii_csr := by
  unfold ipq806x_gmac_of_parse
  cases pdev.qcom_id with
  | none => exact ⟨rfl, rfl⟩
  | some cell =>
    simp only
    split_ifs <;> exact ⟨rfl, rfl⟩

theorem of_parse_read (pdev : platform_device) (s : hw) (m : regmap) (reg : Nat) :
    regmap_read (ipq806x_gmac_of_parse pdev s).2.2 m reg = regmap_read s m reg := by
  obtain ⟨h1, h2⟩ := of_parse_regs pdev s
  cases m <;> simp [regmap_read, hw.regs, h1, h2]

theorem probe_after_parse_steps (pdev : platform_device) (gmac : ipq806x_gmac) (s : hw)
    (gw sw cw : Nat) (hg : probe_gmac_ctl gmac = some gw)
    (hs : probe_clk_src gmac (regmap_read s .nss_common NSS_COMMON_CLK_SRC_CTRL) = some sw)
    (hc : probe_clk_gate gmac (regmap_read s .nss_common NSS_COMMON_CLK_GATE) = some cw) :
    probe_after_parse pdev gmac s =
      if gmac.phy_mode = .SGMII then
        probe_sgmii_tail pdev gmac (probe_clocks_state gmac s gw sw cw)
      else probe_handoff pdev gmac (probe_clocks_state gmac s gw sw cw) := by
  have n1 : NSS_COMMON_GMAC_CTL gmac.id ≠ NSS_COMMON_CLK_SRC_CTRL := by
    unfold NSS_COMMON_GMAC_CTL NSS_COMMON_CLK_SRC_CTRL
    omega
  have n2 : NSS_COMMON_GMAC_CTL gmac.id ≠ NSS_COMMON_CLK_GATE := by
    unfold NSS_COMMON_GMAC_CTL NSS_COMMON_CLK_GATE
    omega
  have n3 : NSS_COMMON_CLK_SRC_CTRL ≠ NSS_COMMON_CLK_GATE := by decide
  have r1 : ∀ (t : hw) (v reg2 : Nat),
      regmap_read (regmap_write t .qsgmii_csr QSGMII_PCS_CAL_LCKDT_CTL v) .nss_common reg2 =
        regmap_read t .nss_common reg2 :=
    fun t v reg2 => regmap_read_write_other t _ _ _ _ v (Or.inl (by decide))
  have r2 : ∀ (t : hw) (v : Nat),
      regmap_read (regmap_write t .nss_common (NSS_COMMON_GMAC_CTL gmac.id) v) .nss_common
        NSS_COMMON_CLK_SRC_CTRL = regmap_read t .nss_common NSS_COMMON_CLK_SRC_CTRL :=
    fun t v => regmap_read_write_other t _ _ _ _ v (Or.inr n1)
  have r3 : ∀ (t : hw) (v : Nat),
      regmap_read (regmap_write t .nss_common (NSS_COMMON_GMAC_CTL gmac.id) v) .nss_common
        NSS_COMMON_CLK_GATE = regmap_read t .nss_common NSS_COMMON_CLK_GATE :=
    fun t v => regmap_read_write_other t _ _ _ _ v (Or.inr n2)
  have r4 : ∀ (t : hw) (v : Nat),
      regmap_read (regmap_write t .nss_common NSS_COMMON_CLK_SRC_CTRL v) .nss_common
        NSS_COMMON_CLK_GATE = regmap_read t .nss_common NSS_COMMON_CLK_GATE :=
    fun t v => regmap_read_write_other t _ _ _ _ v (Or.inr n3)
  unfold probe_after_parse
  simp only [hg, r1, r2, r3, r4, hs, hc]
  rfl

theorem probe_after_parse_unsupported (pdev : platform_device) (id : Nat)
    (mode : phy_interface_t) (s : hw) (hm : supported_mode mode = false) :
    probe_after_parse pdev ⟨id, mode⟩ s =
      (-EINVAL,
        regmap_write s .qsgmii_csr QSGMII_PCS_CAL_LCKDT_CTL QSGMII_PCS_CAL_LCKDT_CTL_RST) := by
  cases mode <;> simp [supported_mode] at hm <;>
    simp only [probe_after_parse, probe_gmac_ctl]

theorem probe_clocks_state_writes (gmac : ipq806x_gmac) (s : hw) (gw sw cw : Nat) :
    (probe_clocks_state gmac s gw sw cw).writes = s.writes ++
      [⟨.qsgmii_csr, QSGMII_PCS_CAL_LCKDT_CTL, QSGMII_PCS_CAL_LCKDT_CTL_RST⟩,
       ⟨.nss_common, NSS_COMMON_GMAC_CTL gmac.id, u32 gw⟩,
       ⟨.nss_common, NSS_COMMON_CLK_SRC_CTRL, u32 sw⟩,
       ⟨.nss_common, NSS_COMMON_CLK_GATE, u32 cw⟩] := by
  have hr : u32 QSGMII_PCS_CAL_LCKDT_CTL_RST = QSGMII_PCS_CAL_LCKDT_CTL_RST := by decide
  unfold probe_clocks_state
  simp only [regmap_write_writes, List.append_assoc, List.singleton_append, List.cons_append,
    List.nil_append, hr]

theorem probe_gmac_ctl_supported (id : Nat) (mode : phy_interface_t)
    (hm : supported_mode mode = true) :
    probe_gmac_ctl ⟨id, mode⟩ = some (if rgmii_family mode then 0x90C0C else 0x80C0C) := by
  cases mode <;> simp [supported_mode] at hm <;>
    simp only [probe_gmac_ctl, rgmii_family] <;> decide

theorem probe_clk_src_supported (id : Nat) (mode : phy_interface_t) (v : Nat)
    (hm : supported_mode mode = true) :
    ∃ sw, probe_clk_src ⟨id, mode⟩ v = some sw ∧
      ∀ k, (u32 sw).testBit k =
        (decide (k < 32) &&
          (if k = id then (rgmii_family mode || decide (2 ≤ id)) else v.testBit k)) := by
  have key : ∀ c : Nat, (c = 0 ∨ c = 1) → ∀ k,
      (u32 ((v &&& not32 (1 <<< id)) ||| (c <<< id))).testBit k =
        (decide (k < 32) && (if k = id then decide (c = 1) else v.testBit k)) := by
    intro c hc k
    rw [testBit_u32, Nat.testBit_or, Nat.testBit_and, testBit_not32, Nat.one_shiftLeft,
      Nat.testBit_two_pow, Nat.testBit_shiftLeft]
    by_cases hk : k = id
    · subst hk
      rcases hc with h | h <;> subst h <;> simp
    · have hk2 : ¬ id = k := fun e => hk e.symm
      rw [if_neg hk]
      by_cases hge : k ≥ id
      · have hpos : k - id ≠ 0 := by omega
        have hc0 : c.testBit (k - id) = false := by
          rcases hc with h | h <;> subst h
          · simp
          · exact Nat.testBit_lt_two_pow (Nat.one_lt_two_pow hpos)
        simp only [hk2, hc0, decide_False, Bool.not_false, Bool.and_true, Bool.and_false,
          Bool.or_false]
        cases decide (k < 32) <;> cases v.testBit k <;> rfl
      · simp only [hk2, hge, decide_False, Bool.not_false, Bool.and_true, Bool.false_and,
          Bool.or_false]
        cases decide (k < 32) <;> cases v.testBit k <;> rfl
  cases mode <;> simp [supported_mode] at hm
  · refine ⟨_, rfl, ?_⟩
    intro k
    have h := key (NSS_COMMON_CLK_SRC_CTRL_SGMII id)
      (by unfold NSS_COMMON_CLK_SRC_CTRL_SGMII; split_ifs <;> simp) k
    unfold NSS_COMMON_CLK_SRC_CTRL_OFFSET
    rw [h]
    have e : decide (NSS_COMMON_CLK_SRC_CTRL_SGMII id = 1) = decide (2 ≤ id) := by
      unfold NSS_COMMON_CLK_SRC_CTRL_SGMII
      by_cases h2 : id ≥ 2 <;> simp [h2]
    rw [e]
    simp [rgmii_family]
  all_goals
    refine ⟨_, rfl, ?_⟩
    intro k
    have h := key (NSS_COMMON_CLK_SRC_CTRL_RGMII id) (Or.inr rfl) k
    unfold NSS_COMMON_CLK_SRC_CTRL_OFFSET
    rw [h]
    simp [rgmii_family, NSS_COMMON_CLK_SRC_CTRL_RGMII]

theorem probe_clk_gate_supported (id : Nat) (mode : phy_interface_t) (v : Nat)
    (hm : supported_mode mode = true) :
    ∃ cw, probe_clk_gate ⟨id, mode⟩ v = some cw ∧
      ∀ k, (u32 cw).testBit k =
        (decide (k < 32) &&
          (decide (k = 16 + id ∨ k = gate_rx_bit mode id ∨ k = gate_tx_bit mode id) ||
            v.testBit k)) := by
  have key : ∀ rx tx k : Nat,
      (u32 (v ||| BIT (0x10 + id) ||| (BIT rx ||| BIT tx))).testBit k =
        (decide (k < 32) && (decide (k = 16 + id ∨ k = rx ∨ k = tx) || v.testBit k)) := by
    intro rx tx k
    rw [testBit_u32, Nat.testBit_or, Nat.testBit_or, Nat.testBit_or, testBit_BIT, testBit_BIT,
      testBit_BIT]
    rw [decide_eq_decide.mpr (eq_comm : 0x10 + id = k ↔ k = 16 + id),
      decide_eq_decide.mpr (eq_comm : rx = k ↔ k = rx),
      decide_eq_decide.mpr (eq_comm : tx = k ↔ k = tx), Bool.decide_or, Bool.decide_or]
    cases decide (k < 32) <;> cases v.testBit k <;> cases decide (k = 16 + id) <;>
      cases decide (k = rx) <;> cases decide (k = tx) <;> rfl
  cases mode <;> simp [supported_mode] at hm
  · refine ⟨_, rfl, ?_⟩
    intro k
    have h := key (0x4 + id) (0x0 + id) k
    simp only [NSS_COMMON_CLK_GATE_PTP_EN, NSS_COMMON_CLK_GATE_GMII_RX_EN,
      NSS_COMMON_CLK_GATE_GMII_TX_EN]
    rw [h]
    simp [gate_rx_bit, gate_tx_bit, rgmii_family]
  all_goals
    refine ⟨_, rfl, ?_⟩
    intro k
    have h := key (0x9 + (id * 2)) (0x8 + (id * 2)) k
    simp only [NSS_COMMON_CLK_GATE_PTP_EN, NSS_COMMON_CLK_GATE_RGMII_RX_EN,
      NSS_COMMON_CLK_GATE_RGMII_TX_EN]
    rw [h]
    simp [gate_rx_bit, gate_tx_bit, rgmii_family, Nat.mul_comm]

theorem of_parse_id_le (pdev : platform_device) (s : hw)
    (hp : (ipq806x_gmac_of_parse pdev s).1 = 0) : (ipq806x_gmac_of_parse pdev s).2.1.id ≤ 3 := by
  have hne : ¬ (-EINVAL = (0 : Int)) := by decide
  unfold ipq806x_gmac_of_parse at hp ⊢
  cases h : pdev.qcom_id with
  | none =>
    rw [h] at hp
    exact absurd hp hne
  | some cell =>
    rw [h] at hp
    simp only at hp ⊢
    by_cases h3 : u32 cell > 3
    · rw [if_pos h3] at hp
      exact absurd hp hne
    · rw [if_neg h3]
      split_ifs <;> exact Nat.le_of_not_gt h3

theorem regmap_read_nss_congr (s t : hw) (reg : Nat) (h : t.nss_common = s.nss_common) :
    regmap_read t .nss_common reg = regmap_read s .nss_common reg := by
  simp [regmap_read, hw.regs, h]

theorem regmap_write_qsgmii_nss (s : hw) (reg val : Nat) :
    (regmap_write s .qsgmii_csr reg val).nss_common = s.nss_common := rfl

theorem update_bits_effect (s : hw) (reg mask val : Nat) :
    ((regmap_update_bits s .qsgmii_csr reg mask val).writes = s.writes ∨
      (regmap_update_bits s .qsgmii_csr reg mask val).writes = s.writes ++
        [⟨.qsgmii_csr, reg, regmap_read (regmap_update_bits s .qsgmii_csr reg mask val)
          .qsgmii_csr reg⟩]) ∧
    (regmap_update_bits s .qsgmii_csr reg mask val).nss_common = s.nss_common ∧
    (regmap_update_bits s .qsgmii_csr reg mask val).handoff = s.handoff := by
  unfold regmap_update_bits
  simp only
  split_ifs with h
  · refine ⟨Or.inr ?_, rfl, rfl⟩
    rw [regmap_write_writes, regmap_read_write_same]
  · exact ⟨Or.inl rfl, rfl, rfl⟩

theorem params_effect (pdev : platform_device) (gmac : ipq806x_gmac) (s : hw) :
    ∃ l, (ipq806x_gmac_configure_qsgmii_params pdev gmac s).2.writes = s.writes ++ l ∧
      writes_to .nss_common l = [] ∧
      (ipq806x_gmac_configure_qsgmii_params pdev gmac s).2.nss_common = s.nss_common ∧
      (ipq806x_gmac_configure_qsgmii_params pdev gmac s).2.handoff = s.handoff := by
  unfold ipq806x_gmac_configure_qsgmii_params
  cases qsgmii_param_word pdev gmac with
  | none => exact ⟨[], by simp, rfl, rfl, rfl⟩
  | some w => exact ⟨[⟨.qsgmii_csr, QSGMII_PHY_SGMII_CTL gmac.id, u32 w⟩], rfl, rfl, rfl, rfl⟩

theorem pcs_speed_effect (pdev : platform_device) (gmac : ipq806x_gmac) (s : hw) :
    ∃ l, (ipq806x_gmac_configure_qsgmii_pcs_speed pdev gmac s).2.writes = s.writes ++ l ∧
      writes_to .nss_common l = [] ∧
      (ipq806x_gmac_configure_qsgmii_pcs_speed pdev gmac s).2.nss_common = s.nss_common ∧
      (ipq806x_gmac_configure_qsgmii_pcs_speed pdev gmac s).2.handoff = s.handoff := by
  have key : ∀ mask val : Nat,
      ∃ l, (regmap_update_bits s .qsgmii_csr QSGMII_PCS_ALL_CH_CTL mask val).writes =
          s.writes ++ l ∧ writes_to .nss_common l = [] ∧
        (regmap_update_bits s .qsgmii_csr QSGMII_PCS_ALL_CH_CTL mask val).nss_common =
          s.nss_common ∧
        (regmap_update_bits s .qsgmii_csr QSGMII_PCS_ALL_CH_CTL mask val).handoff =
          s.handoff := by
    intro mask val
    obtain ⟨h | h, h2, h3⟩ := update_bits_effect s QSGMII_PCS_ALL_CH_CTL mask val
    · exact ⟨[], by simp [h], rfl, h2, h3⟩
    · exact ⟨_, h, rfl, h2, h3⟩
  unfold ipq806x_gmac_configure_qsgmii_pcs_speed
  simp only
  split_ifs
  · exact key _ _
  · exact ⟨[], by simp, rfl, rfl, rfl⟩
  all_goals exact key _ _

theorem sgmii_tail_effect (pdev : platform_device) (gmac : ipq806x_gmac) (s : hw) :
    ∃ l, (probe_sgmii_tail pdev gmac s).2.writes = s.writes ++ l ∧
      writes_to .nss_common l = [] ∧
      (probe_sgmii_tail pdev gmac s).2.nss_common = s.nss_common := by
  obtain ⟨l1, a1, a2, a3, _⟩ := params_effect pdev gmac s
  obtain ⟨l2, b1, b2, b3, _⟩ :=
    pcs_speed_effect pdev gmac (ipq806x_gmac_configure_qsgmii_params pdev gmac s).2
  unfold probe_sgmii_tail
  simp only
  split_ifs
  · exact ⟨l1, a1, a2, a3⟩
  · refine ⟨l1 ++ l2, ?_, ?_, ?_⟩
    · rw [b1, a1, List.append_assoc]
    · simp [writes_to] at a2 b2 ⊢
      exact ⟨a2, b2⟩
    · rw [b3, a3]
  · refine ⟨l1 ++ l2, ?_, ?_, ?_⟩
    · show (ipq806x_gmac_configure_qsgmii_pcs_speed pdev gmac
        (ipq806x_gmac_configure_qsgmii_params pdev gmac s).2).2.writes = _
      rw [b1, a1, List.append_assoc]
    · simp [writes_to] at a2 b2 ⊢
      exact ⟨a2, b2⟩
    · show (ipq806x_gmac_configure_qsgmii_pcs_speed pdev gmac
        (ipq806x_gmac_configure_qsgmii_params pdev gmac s).2).2.nss_common = _
      rw [b3, a3]

theorem probe_clocks_state_reads (gmac : ipq806x_gmac) (s : hw) (gw sw cw : Nat) :
    regmap_read (probe_clocks_state gmac s gw sw cw) .nss_common (NSS_COMMON_GMAC_CTL gmac.id) =
      u32 gw ∧
    regmap_read (probe_clocks_state gmac s gw sw cw) .nss_common NSS_COMMON_CLK_SRC_CTRL =
      u32 sw ∧
    regmap_read (probe_clocks_state gmac s gw sw cw) .nss_common NSS_COMMON_CLK_GATE =
      u32 cw ∧
    ∀ reg, reg ≠ QSGMII_PCS_CAL_LCKDT_CTL →
      regmap_read (probe_clocks_state gmac s gw sw cw) .qsgmii_csr reg =
        regmap_read s .qsgmii_csr reg := by
  have n1 : NSS_COMMON_CLK_SRC_CTRL ≠ NSS_COMMON_GMAC_CTL gmac.id := by
    unfold NSS_COMMON_GMAC_CTL NSS_COMMON_CLK_SRC_CTRL
    omega
  have n2 : NSS_COMMON_CLK_GATE ≠ NSS_COMMON_GMAC_CTL gmac.id := by
    unfold NSS_COMMON_GMAC_CTL NSS_COMMON_CLK_GATE
    omega
  have n3 : NSS_COMMON_CLK_GATE ≠ NSS_COMMON_CLK_SRC_CTRL := by decide
  unfold probe_clocks_state
  refine ⟨?_, ?_, ?_, ?_⟩
  · rw [regmap_read_write_other _ _ _ _ _ _ (Or.inr n2),
      regmap_read_write_other _ _ _ _ _ _ (Or.inr n1), regmap_read_write_same]
  · rw [regmap_read_write_other _ _ _ _ _ _ (Or.inr n3), regmap_read_write_same]
  · rw [regmap_read_write_same]
  · intro reg hreg
    have q : regmap.nss_common ≠ regmap.qsgmii_csr := by decide
    rw [regmap_read_write_other _ _ _ _ _ _ (Or.inl q),
      regmap_read_write_other _ _ _ _ _ _ (Or.inl q),
      regmap_read_write_other _ _ _ _ _ _ (Or.inl q),
      regmap_read_write_other _ _ _ _ _ _ (Or.inr (Ne.symm hreg))]

theorem probe_supported_summary (pdev : platform_device) (s : hw) (id : Nat)
    (mode : phy_interface_t)
    (h1 : pdev.resources_ret = 0) (h2 : pdev.plat_dat_err = 0) (h3 : pdev.kzalloc_ok = true)
    (hp : (ipq806x_gmac_of_parse pdev s).1 = 0)
    (hg : (ipq806x_gmac_of_parse pdev s).2.1 = ⟨id, mode⟩)
    (hm : supported_mode mode = true) :
    ∃ sw cw l,
      probe_clk_src ⟨id, mode⟩ (regmap_read s .nss_common NSS_COMMON_CLK_SRC_CTRL) = some sw ∧
      probe_clk_gate ⟨id, mode⟩ (regmap_read s .nss_common NSS_COMMON_CLK_GATE) = some cw ∧
      (ipq806x_gmac_probe pdev s).2.writes = s.writes ++
        ([⟨.qsgmii_csr, QSGMII_PCS_CAL_LCKDT_CTL, QSGMII_PCS_CAL_LCKDT_CTL_RST⟩,
          ⟨.nss_common, NSS_COMMON_GMAC_CTL id, if rgmii_family mode then 0x90C0C else 0x80C0C⟩,
          ⟨.nss_common, NSS_COMMON_CLK_SRC_CTRL, u32 sw⟩,
          ⟨.nss_common, NSS_COMMON_CLK_GATE, u32 cw⟩] ++ l) ∧
      writes_to .nss_common l = [] ∧
      regmap_read (ipq806x_gmac_probe pdev s).2 .nss_common (NSS_COMMON_GMAC_CTL id) =
        (if rgmii_family mode then 0x90C0C else 0x80C0C) ∧
      regmap_read (ipq806x_gmac_probe pdev s).2 .nss_common NSS_COMMON_CLK_SRC_CTRL = u32 sw ∧
      regmap_read (ipq806x_gmac_probe pdev s).2 .nss_common NSS_COMMON_CLK_GATE = u32 cw := by
  have hgw := probe_gmac_ctl_supported id mode hm
  obtain ⟨sw, hsw, -⟩ := probe_clk_src_supported id mode
    (regmap_read s .nss_common NSS_COMMON_CLK_SRC_CTRL) hm
  obtain ⟨cw, hcw, -⟩ := probe_clk_gate_supported id mode
    (regmap_read s .nss_common NSS_COMMON_CLK_GATE) hm
  have hu : u32 (if rgmii_family mode then 0x90C0C else 0x80C0C) =
      (if rgmii_family mode then 0x90C0C else 0x80C0C) := by
    split_ifs <;> decide
  obtain ⟨p1, -, -⟩ := of_parse_writes pdev s
  have hsw0 := hsw
  have hcw0 := hcw
  rw [← of_parse_read pdev s] at hsw0 hcw0
  have hstep := probe_after_parse_steps pdev ⟨id, mode⟩ (ipq806x_gmac_of_parse pdev s).2.2
    _ sw cw hgw hsw0 hcw0
  obtain ⟨rg, rs, rc, -⟩ := probe_clocks_state_reads ⟨id, mode⟩
    (ipq806x_gmac_of_parse pdev s).2.2 (if rgmii_family mode then 0x90C0C else 0x80C0C) sw cw
  have hw := probe_clocks_state_writes ⟨id, mode⟩ (ipq806x_gmac_of_parse pdev s).2.2
    (if rgmii_family mode then 0x90C0C else 0x80C0C) sw cw
  rw [p1, hu] at hw
  rw [hu] at rg
  rw [probe_eq_after_parse pdev s h1 h2 h3 hp, hg, hstep]
  refine ⟨sw, cw, ?_⟩
  by_cases hsg : mode = .SGMII
  · simp only [hsg, if_true]
    rw [hsg] at hw rg rs rc hsw hcw
    obtain ⟨l, t1, t2, t3⟩ := sgmii_tail_effect pdev ⟨id, .SGMII⟩
      (probe_clocks_state ⟨id, .SGMII⟩ (ipq806x_gmac_of_parse pdev s).2.2
        (if rgmii_family .SGMII then 0x90C0C else 0x80C0C) sw cw)
    refine ⟨l, hsw, hcw, ?_, t2, ?_, ?_, ?_⟩
    · rw [t1, hw, List.append_assoc]
    · rw [regmap_read_nss_congr _ _ _ t3]
      exact rg
    · rw [regmap_read_nss_congr _ _ _ t3]
      exact rs
    · rw [regmap_read_nss_congr _ _ _ t3]
      exact rc
  · simp only [hsg, if_false]
    refine ⟨[], hsw, hcw, ?_, rfl, ?_, ?_, ?_⟩
    · rw [List.append_nil]
      exact hw
    · exact rg
    · exact rs
    · exact rc

/-- C16: bring-up after a successful parse in a mode other than the four RGMII
variants and SGMII returns the error -EINVAL, does not hand over to the stmmac
core, and writes nothing from the GMAC-control step onward: the nss-common
region is exactly as it was and the only write of the bring-up is the PCS
reset that precedes the GMAC-control step. -/
theorem probe_unsupported_mode (pdev : platform_device) (s : hw)
    (h1 : pdev.resources_ret = 0) (h2 : pdev.plat_dat_err = 0) (h3 : pdev.kzalloc_ok = true)
    (hp : (ipq806x_gmac_of_parse pdev s).1 = 0)
    (hm : supported_mode pdev.phy_interface = false) :
    (ipq806x_gmac_probe pdev s).1 = -EINVAL ∧ (ipq806x_gmac_probe pdev s).1 ≠ 0 ∧
    (ipq806x_gmac_probe pdev s).2.handoff = s.handoff ∧
    (ipq806x_gmac_probe pdev s).2.nss_common = s.nss_common ∧
    (ipq806x_gmac_probe pdev s).2.writes =
      s.writes ++ [⟨.qsgmii_csr, QSGMII_PCS_CAL_LCKDT_CTL, QSGMII_PCS_CAL_LCKDT_CTL_RST⟩] := by
  obtain ⟨p1, p2, p3⟩ := of_parse_writes pdev s
  obtain ⟨q1, -⟩ := of_parse_regs pdev s
  rw [probe_eq_after_parse pdev s h1 h2 h3 hp]
  rcases hgm : (ipq806x_gmac_of_parse pdev s).2.1 with ⟨id, mode⟩
  rw [hgm] at p3
  simp only at p3
  rw [← p3] at hm
  rw [probe_after_parse_unsupported pdev id mode _ hm]
  have hne : (-EINVAL : Int) ≠ 0 := by decide
  refine ⟨rfl, hne, ?_, ?_, ?_⟩
  · rw [regmap_write_handoff, p2]
  · rw [regmap_write_qsgmii_nss, q1]
  · rw [regmap_write_writes, p1]
    rfl

/-- Witness of C16: mode QSGMII on instance 2. -/
theorem probe_unsupported_mode_witness :
    (pdev_ok .QSGMII 2 false).resources_ret = 0 ∧ (pdev_ok .QSGMII 2 false).plat_dat_err = 0 ∧
    (pdev_ok .QSGMII 2 false).kzalloc_ok = true ∧
    (ipq806x_gmac_of_parse (pdev_ok .QSGMII 2 false) (hw_fill 7 0)).1 = 0 ∧
    supported_mode (pdev_ok .QSGMII 2 false).phy_interface = false ∧
    (ipq806x_gmac_probe (pdev_ok .QSGMII 2 false) (hw_fill 7 0)).1 = -EINVAL ∧
    (ipq806x_gmac_probe (pdev_ok .QSGMII 2 false) (hw_fill 7 0)).1 ≠ 0 ∧
    (ipq806x_gmac_probe (pdev_ok .QSGMII 2 false) (hw_fill 7 0)).2.handoff =
      (hw_fill 7 0).handoff ∧
    (ipq806x_gmac_probe (pdev_ok .QSGMII 2 false) (hw_fill 7 0)).2.nss_common =
      (hw_fill 7 0).nss_common ∧
    (ipq806x_gmac_probe (pdev_ok .QSGMII 2 false) (hw_fill 7 0)).2.writes =
      (hw_fill 7 0).writes ++
        [⟨.qsgmii_csr, QSGMII_PCS_CAL_LCKDT_CTL, QSGMII_PCS_CAL_LCKDT_CTL_RST⟩] :=
  ⟨rfl, rfl, rfl, rfl, rfl,
    probe_unsupported_mode (pdev_ok .QSGMII 2 false) (hw_fill 7 0) rfl rfl rfl rfl rfl⟩

theorem writes_to_nss_clocks (a b c : reg_write) (l : List reg_write) (reg val : Nat)
    (ha : a.map = .nss_common) (hb : b.map = .nss_common) (hc : c.map = .nss_common)
    (hl : writes_to .nss_common l = []) :
    writes_to .nss_common ([⟨.qsgmii_csr, reg, val⟩, a, b, c] ++ l) = [a, b, c] := by
  unfold writes_to at hl ⊢
  rw [List.filter_append, hl]
  simp [List.filter, ha, hb, hc]

/-- C12: bring-up after a successful parse (instance id at most 3) in a
supported mode writes to the GMAC control register of the instance, nss-common
offset 0x30 + 4*id, the word 0x90C0C for an RGMII-family mode and 0x80C0C for
SGMII, whatever the registers held before; it is the first of the three writes
to nss-common and the register still reads it at the end. The words are
12 | 12 << 8 | BIT(19), with BIT(16) set for the RGMII family only. -/
theorem probe_gmac_ctl_write (pdev : platform_device) (s : hw) (id : Nat)
    (mode : phy_interface_t)
    (h1 : pdev.resources_ret = 0) (h2 : pdev.plat_dat_err = 0) (h3 : pdev.kzalloc_ok = true)
    (hp : (ipq806x_gmac_of_parse pdev s).1 = 0)
    (hg : (ipq806x_gmac_of_parse pdev s).2.1 = ⟨id, mode⟩)
    (hm : supported_mode mode = true) :
    id ≤ 3 ∧
    (∃ l v2 v3, (ipq806x_gmac_probe pdev s).2.writes = s.writes ++ l ∧
      writes_to .nss_common l =
        [⟨.nss_common, 0x30 + 4 * id, if rgmii_family mode then 0x90C0C else 0x80C0C⟩,
         ⟨.nss_common, 0x14, v2⟩, ⟨.nss_common, 0x8, v3⟩]) ∧
    regmap_read (ipq806x_gmac_probe pdev s).2 .nss_common (0x30 + 4 * id) =
      (if rgmii_family mode then 0x90C0C else 0x80C0C) ∧
    (0x90C0C : Nat) = 12 <<< 0 ||| 12 <<< 8 ||| BIT 19 ||| BIT 16 ∧
    (0x80C0C : Nat) = 12 <<< 0 ||| 12 <<< 8 ||| BIT 19 ∧
    (0x80C0C : Nat).testBit 16 = false := by
  have hid : id ≤ 3 := by
    have := of_parse_id_le pdev s hp
    rw [hg] at this
    exact this
  obtain ⟨sw, cw, l, -, -, hw, hl, rg, -, -⟩ :=
    probe_supported_summary pdev s id mode h1 h2 h3 hp hg hm
  have hoff : NSS_COMMON_GMAC_CTL id = 0x30 + 4 * id := by
    unfold NSS_COMMON_GMAC_CTL
    omega
  rw [hoff] at hw rg
  refine ⟨hid, ⟨_, u32 sw, u32 cw, hw, ?_⟩, rg, by decide, by decide, by decide⟩
  exact writes_to_nss_clocks _ _ _ l _ _ rfl rfl rfl hl

/-- Witness of C12: instance 3 in mode RGMII_RXID with every nss-common
register holding all ones. -/
theorem probe_gmac_ctl_write_witness :
    (pdev_ok .RGMII_RXID 3 false).resources_ret = 0 ∧
    (pdev_ok .RGMII_RXID 3 false).plat_dat_err = 0 ∧
    (pdev_ok .RGMII_RXID 3 false).kzalloc_ok = true ∧
    (ipq806x_gmac_of_parse (pdev_ok .RGMII_RXID 3 false) (hw_fill 0xFFFFFFFF 0)).1 = 0 ∧
    (ipq806x_gmac_of_parse (pdev_ok .RGMII_RXID 3 false) (hw_fill 0xFFFFFFFF 0)).2.1 =
      ⟨3, .RGMII_RXID⟩ ∧
    supported_mode .RGMII_RXID = true ∧
    3 ≤ 3 ∧
    (∃ l v2 v3,
      (ipq806x_gmac_probe (pdev_ok .RGMII_RXID 3 false) (hw_fill 0xFFFFFFFF 0)).2.writes =
        (hw_fill 0xFFFFFFFF 0).writes ++ l ∧
      writes_to .nss_common l =
        [⟨.nss_common, 0x30 + 4 * 3, if rgmii_family .RGMII_RXID then 0x90C0C else 0x80C0C⟩,
         ⟨.nss_common, 0x14, v2⟩, ⟨.nss_common, 0x8, v3⟩]) ∧
    regmap_read (ipq806x_gmac_probe (pdev_ok .RGMII_RXID 3 false) (hw_fill 0xFFFFFFFF 0)).2
        .nss_common (0x30 + 4 * 3) =
      (if rgmii_family .RGMII_RXID then 0x90C0C else 0x80C0C) ∧
    (0x90C0C : Nat) = 12 <<< 0 ||| 12 <<< 8 ||| BIT 19 ||| BIT 16 ∧
    (0x80C0C : Nat) = 12 <<< 0 ||| 12 <<< 8 ||| BIT 19 ∧
    (0x80C0C : Nat).testBit 16 = false :=
  ⟨rfl, rfl, rfl, rfl, rfl, rfl,
    probe_gmac_ctl_write (pdev_ok .RGMII_RXID 3 false) (hw_fill 0xFFFFFFFF 0) 3 .RGMII_RXID
      rfl rfl rfl rfl rfl rfl⟩

/-- C13: bring-up after a successful parse (instance id at most 3) in a
supported mode writes back to the clock-source-control register (nss-common
0x14) a word whose bit id is 1 for an RGMII-family mode and, for SGMII, 1 when
id >= 2 and 0 when id < 2, every other bit being as read from the register
before; it is the only write to that register and the register still reads
that word at the end. -/
theorem probe_clk_src_write (pdev : platform_device) (s : hw) (id : Nat)
    (mode : phy_interface_t)
    (h1 : pdev.resources_ret = 0) (h2 : pdev.plat_dat_err = 0) (h3 : pdev.kzalloc_ok = true)
    (hp : (ipq806x_gmac_of_parse pdev s).1 = 0)
    (hg : (ipq806x_gmac_of_parse pdev s).2.1 = ⟨id, mode⟩)
    (hm : supported_mode mode = true) :
    id ≤ 3 ∧
    ∃ l v1 v2 v3, (ipq806x_gmac_probe pdev s).2.writes = s.writes ++ l ∧
      writes_to .nss_common l =
        [⟨.nss_common, 0x30 + 4 * id, v1⟩, ⟨.nss_common, 0x14, v2⟩, ⟨.nss_common, 0x8, v3⟩] ∧
      regmap_read (ipq806x_gmac_probe pdev s).2 .nss_common 0x14 = v2 ∧
      ∀ k, v2.testBit k =
        if k = id then (rgmii_family mode || decide (2 ≤ id))
        else (regmap_read s .nss_common 0x14).testBit k := by
  have hid : id ≤ 3 := by
    have := of_parse_id_le pdev s hp
    rw [hg] at this
    exact this
  obtain ⟨sw, cw, l, hsw, -, hw, hl, -, rs, -⟩ :=
    probe_supported_summary pdev s id mode h1 h2 h3 hp hg hm
  obtain ⟨sw2, hsw2, hbits⟩ := probe_clk_src_supported id mode
    (regmap_read s .nss_common NSS_COMMON_CLK_SRC_CTRL) hm
  have e : sw2 = sw := by
    rw [hsw] at hsw2
    exact (Option.some.inj hsw2).symm
  subst e
  have hoff : NSS_COMMON_GMAC_CTL id = 0x30 + 4 * id := by
    unfold NSS_COMMON_GMAC_CTL
    omega
  rw [hoff] at hw
  refine ⟨hid, _, (if rgmii_family mode then 0x90C0C else 0x80C0C), u32 sw2, u32 cw, hw, ?_,
    rs, ?_⟩
  · exact writes_to_nss_clocks _ _ _ l _ _ rfl rfl rfl hl
  · intro k
    rw [hbits k]
    by_cases hk : k = id
    · have : k < 32 := by omega
      simp [hk, this]
      intro h
      omega
    · rw [if_neg hk, if_neg hk]
      show (decide (k < 32) && (regmap_read s .nss_common 0x14).testBit k) = _
      rw [testBit_regmap_read]
      cases decide (k < 32) <;> rfl

/-- Witness of C13: instance 1 in mode SGMII with every nss-common register
holding all ones. -/
theorem probe_clk_src_write_witness :
    (pdev_ok .SGMII 1 false).resources_ret = 0 ∧ (pdev_ok .SGMII 1 false).plat_dat_err = 0 ∧
    (pdev_ok .SGMII 1 false).kzalloc_ok = true ∧
    (ipq806x_gmac_of_parse (pdev_ok .SGMII 1 false) (hw_fill 0xFFFFFFFF 0)).1 = 0 ∧
    (ipq806x_gmac_of_parse (pdev_ok .SGMII 1 false) (hw_fill 0xFFFFFFFF 0)).2.1 =
      ⟨1, .SGMII⟩ ∧
    supported_mode .SGMII = true ∧
    1 ≤ 3 ∧
    ∃ l v1 v2 v3,
      (ipq806x_gmac_probe (pdev_ok .SGMII 1 false) (hw_fill 0xFFFFFFFF 0)).2.writes =
        (hw_fill 0xFFFFFFFF 0).writes ++ l ∧
      writes_to .nss_common l =
        [⟨.nss_common, 0x30 + 4 * 1, v1⟩, ⟨.nss_common, 0x14, v2⟩, ⟨.nss_common, 0x8, v3⟩] ∧
      regmap_read (ipq806x_gmac_probe (pdev_ok .SGMII 1 false) (hw_fill 0xFFFFFFFF 0)).2
        .nss_common 0x14 = v2 ∧
      ∀ k, v2.testBit k =
        if k = 1 then (rgmii_family .SGMII || decide (2 ≤ 1))
        else (regmap_read (hw_fill 0xFFFFFFFF 0) .nss_common 0x14).testBit k :=
  ⟨rfl, rfl, rfl, rfl, rfl, rfl,
    probe_clk_src_write (pdev_ok .SGMII 1 false) (hw_fill 0xFFFFFFFF 0) 1 .SGMII
      rfl rfl rfl rfl rfl rfl⟩

/-! ## End-to-end bring-up of instance 1 in SGMII -/

theorem sgmii_tail_id1 (pdev : platform_device) (t : hw)
    (hfl : pdev.is_fixed_link = false) (hsoc : pdev.soc_v1 = false) :
    probe_sgmii_tail pdev ⟨1, .SGMII⟩ t =
      probe_handoff pdev ⟨1, .SGMII⟩
        (regmap_update_bits (regmap_write t .qsgmii_csr 0x134 0xD098408F) .qsgmii_csr
          QSGMII_PCS_ALL_CH_CTL (QSGMII_PCS_CH_SPEED_MASK <<< QSGMII_PCS_CH_SPEED_SHIFT 1)
          (forced_speed_word none <<< QSGMII_PCS_CH_SPEED_SHIFT 1)) := by
  have w0 : qsgmii_param_word pdev ⟨1, .SGMII⟩ = some 0xD098408F := by
    simp [qsgmii_param_word, qsgmii_param_preset, hsoc]
    decide
  have c1 : QSGMII_PHY_SGMII_CTL 1 = 0x134 := by decide
  have hpar : ipq806x_gmac_configure_qsgmii_params pdev ⟨1, .SGMII⟩ t =
      (0, regmap_write t .qsgmii_csr 0x134 0xD098408F) := by
    simp only [ipq806x_gmac_configure_qsgmii_params, w0, c1]
  have hpcs := pcs_speed_run pdev ⟨1, .SGMII⟩ (regmap_write t .qsgmii_csr 0x134 0xD098408F) none
    (Or.inl ⟨hfl, rfl⟩)
  have h00 : ¬ ((0 : Int) ≠ 0) := by decide
  unfold probe_sgmii_tail
  rw [hpar]
  simp only [h00, if_false]
  rw [hpcs]
  simp only [h00, if_false]

/-- C11 (counterexample): bring-up of instance 1 in mode SGMII, without fixed
link and on a SoC revision other than "1.*", with the all-channels register
holding 0x10: the bring-up succeeds, yet the 4-bit slot of instance 1 reads 1
afterwards, not the forced-speed word 0. -/
theorem probe_sgmii_id1_slot_bit0_kept :
    (pdev_ok .SGMII 1 false).is_fixed_link = false ∧ (pdev_ok .SGMII 1 false).soc_v1 = false ∧
    (ipq806x_gmac_probe (pdev_ok .SGMII 1 false) (hw_fill 0 0x10)).1 = 0 ∧
    pcs_ch_slot (regmap_read (ipq806x_gmac_probe (pdev_ok .SGMII 1 false) (hw_fill 0 0x10)).2
      .qsgmii_csr QSGMII_PCS_ALL_CH_CTL) 1 = 1 ∧
    pcs_ch_slot (regmap_read (ipq806x_gmac_probe (pdev_ok .SGMII 1 false) (hw_fill 0 0x10)).2
      .qsgmii_csr QSGMII_PCS_ALL_CH_CTL) 1 ≠ forced_speed_word none := by
  decide

/-- C11 (amended): bring-up after a successful parse with instance 1, mode
SGMII, no fixed link and a SoC revision other than "1.*" returns what the
stmmac core returns, with the hand-off made, after these updates in order:
qsgmii-csr 0x120 := BIT(19); nss-common 0x34 := 0x80C0C; nss-common 0x14 with
bit 1 cleared and the other bits as read; nss-common 0x8 with bits 17, 5 and 1
set and the other bits as read; qsgmii-csr 0x134 := 0xD098408F; and a
read-modify-write of qsgmii-csr 0x80 under the mask 0xE << 4 that clears bits
7 to 5 and keeps every other bit, bit 4 of the slot included (the write-back
is skipped when the word does not change). -/
theorem probe_sgmii_instance1 (pdev : platform_device) (s : hw)
    (h1 : pdev.resources_ret = 0) (h2 : pdev.plat_dat_err = 0) (h3 : pdev.kzalloc_ok = true)
    (hp : (ipq806x_gmac_of_parse pdev s).1 = 0)
    (hg : (ipq806x_gmac_of_parse pdev s).2.1 = ⟨1, .SGMII⟩)
    (hfl : pdev.is_fixed_link = false) (hsoc : pdev.soc_v1 = false) :
    (ipq806x_gmac_probe pdev s).1 = pdev.dvr_probe_ret ∧
    (ipq806x_gmac_probe pdev s).2.handoff =
      some ⟨true, ⟨1, .SGMII⟩, 0, 8192, 8192⟩ ∧
    ∃ v2 v3 l, (ipq806x_gmac_probe pdev s).2.writes = s.writes ++
        ([⟨.qsgmii_csr, 0x120, BIT 19⟩, ⟨.nss_common, 0x34, 0x80C0C⟩,
          ⟨.nss_common, 0x14, v2⟩, ⟨.nss_common, 0x8, v3⟩,
          ⟨.qsgmii_csr, 0x134, 0xD098408F⟩] ++ l) ∧
      (∀ k, v2.testBit k = (decide (k ≠ 1) && (regmap_read s .nss_common 0x14).testBit k)) ∧
      (∀ k, v3.testBit k =
        (decide (k = 17 ∨ k = 5 ∨ k = 1) || (regmap_read s .nss_common 0x8).testBit k)) ∧
      (l = [] ∨
        l = [⟨.qsgmii_csr, 0x80, regmap_read (ipq806x_gmac_probe pdev s).2 .qsgmii_csr 0x80⟩]) ∧
      ∀ k, (regmap_read (ipq806x_gmac_probe pdev s).2 .qsgmii_csr 0x80).testBit k =
        (decide (k < 5 ∨ 7 < k) && (regmap_read s .qsgmii_csr 0x80).testBit k) := by
  have hm : supported_mode .SGMII = true := by decide
  have hgw : probe_gmac_ctl ⟨1, .SGMII⟩ = some 0x80C0C := by
    have := probe_gmac_ctl_supported 1 .SGMII hm
    rw [this]
    decide
  obtain ⟨sw, hsw, hsb⟩ := probe_clk_src_supported 1 .SGMII
    (regmap_read s .nss_common NSS_COMMON_CLK_SRC_CTRL) hm
  obtain ⟨cw, hcw, hcb⟩ := probe_clk_gate_supported 1 .SGMII
    (regmap_read s .nss_common NSS_COMMON_CLK_GATE) hm
  obtain ⟨p1, -, -⟩ := of_parse_writes pdev s
  have hsw0 := hsw
  have hcw0 := hcw
  rw [← of_parse_read pdev s] at hsw0 hcw0
  have hstep := probe_after_parse_steps pdev ⟨1, .SGMII⟩ (ipq806x_gmac_of_parse pdev s).2.2
    _ sw cw hgw hsw0 hcw0
  obtain ⟨-, -, -, rq⟩ := probe_clocks_state_reads ⟨1, .SGMII⟩
    (ipq806x_gmac_of_parse pdev s).2.2 0x80C0C sw cw
  have hw := probe_clocks_state_writes ⟨1, .SGMII⟩ (ipq806x_gmac_of_parse pdev s).2.2
    0x80C0C sw cw
  rw [p1] at hw
  have htail := sgmii_tail_id1 pdev
    (probe_clocks_state ⟨1, .SGMII⟩ (ipq806x_gmac_of_parse pdev s).2.2 0x80C0C sw cw) hfl hsoc
  have hprobe : ipq806x_gmac_probe pdev s =
      probe_handoff pdev ⟨1, .SGMII⟩
        (regmap_update_bits
          (regmap_write
            (probe_clocks_state ⟨1, .SGMII⟩ (ipq806x_gmac_of_parse pdev s).2.2 0x80C0C sw cw)
            .qsgmii_csr 0x134 0xD098408F) .qsgmii_csr
          QSGMII_PCS_ALL_CH_CTL (QSGMII_PCS_CH_SPEED_MASK <<< QSGMII_PCS_CH_SPEED_SHIFT 1)
          (forced_speed_word none <<< QSGMII_PCS_CH_SPEED_SHIFT 1)) := by
    rw [probe_eq_after_parse pdev s h1 h2 h3 hp, hg, hstep]
    simp only [if_true]
    exact htail
  -- the all-channels register before the read-modify-write
  have hold : regmap_read
      (regmap_write
        (probe_clocks_state ⟨1, .SGMII⟩ (ipq806x_gmac_of_parse pdev s).2.2 0x80C0C sw cw)
        .qsgmii_csr 0x134 0xD098408F) .qsgmii_csr QSGMII_PCS_ALL_CH_CTL =
      regmap_read s .qsgmii_csr QSGMII_PCS_ALL_CH_CTL := by
    rw [regmap_read_write_other _ _ _ _ _ _ (Or.inr (by decide)), rq _ (by decide),
      of_parse_read]
  have hfinal : ∀ k, (regmap_read (ipq806x_gmac_probe pdev s).2 .qsgmii_csr 0x80).testBit k =
      (decide (k < 5 ∨ 7 < k) && (regmap_read s .qsgmii_csr 0x80).testBit k) := by
    intro k
    rw [hprobe]
    show (regmap_read (regmap_update_bits _ .qsgmii_csr QSGMII_PCS_ALL_CH_CTL _ _) .qsgmii_csr
      QSGMII_PCS_ALL_CH_CTL).testBit k = _
    rw [testBit_update_bits, Nat.testBit_shiftLeft, Nat.testBit_shiftLeft, testBit_speed_mask]
    have hz : forced_speed_word none = 0 := rfl
    rw [hz, Nat.zero_testBit, Bool.and_false]
    have hreg := congrArg (fun x => Nat.testBit x k) hold
    simp only [testBit_regmap_read] at hreg
    show _ = (_ && (regmap_read s .qsgmii_csr QSGMII_PCS_ALL_CH_CTL).testBit k)
    rw [testBit_regmap_read]
    unfold QSGMII_PCS_CH_SPEED_SHIFT
    by_cases hin : 5 ≤ k ∧ k ≤ 7
    · have a1 : (decide (k ≥ 1 * 4) && decide (1 ≤ k - 1 * 4 ∧ k - 1 * 4 ≤ 3)) = true := by
        have : k ≥ 1 * 4 ∧ (1 ≤ k - 1 * 4 ∧ k - 1 * 4 ≤ 3) := by omega
        simpa using this
      have a2 : ¬ (k < 5 ∨ 7 < k) := by omega
      rw [a1, if_pos rfl]
      simp [a2]
    · have a1 : (decide (k ≥ 1 * 4) && decide (1 ≤ k - 1 * 4 ∧ k - 1 * 4 ≤ 3)) = false := by
        have : ¬ (k ≥ 1 * 4 ∧ (1 ≤ k - 1 * 4 ∧ k - 1 * 4 ≤ 3)) := by omega
        simpa using this
      have a2 : k < 5 ∨ 7 < k := by omega
      rw [a1]
      simp only [Bool.false_eq_true, if_false]
      rw [hreg]
      simp [a2]
  obtain ⟨hu, -, -⟩ := update_bits_effect
    (regmap_write
      (probe_clocks_state ⟨1, .SGMII⟩ (ipq806x_gmac_of_parse pdev s).2.2 0x80C0C sw cw)
      .qsgmii_csr 0x134 0xD098408F)
    QSGMII_PCS_ALL_CH_CTL (QSGMII_PCS_CH_SPEED_MASK <<< QSGMII_PCS_CH_SPEED_SHIFT 1)
    (forced_speed_word none <<< QSGMII_PCS_CH_SPEED_SHIFT 1)
  have hbase : (regmap_write
      (probe_clocks_state ⟨1, .SGMII⟩ (ipq806x_gmac_of_parse pdev s).2.2 0x80C0C sw cw)
      .qsgmii_csr 0x134 0xD098408F).writes = s.writes ++
        [⟨.qsgmii_csr, 0x120, BIT 19⟩, ⟨.nss_common, 0x34, 0x80C0C⟩,
          ⟨.nss_common, 0x14, u32 sw⟩, ⟨.nss_common, 0x8, u32 cw⟩,
          ⟨.qsgmii_csr, 0x134, 0xD098408F⟩] := by
    rw [regmap_write_writes, hw]
    simp only [List.append_assoc, List.cons_append, List.nil_append]
    rfl
  refine ⟨by rw [hprobe]; rfl, by rw [hprobe]; rfl, u32 sw, u32 cw, ?_⟩
  have hv2 : ∀ k, (u32 sw).testBit k =
      (decide (k ≠ 1) && (regmap_read s .nss_common 0x14).testBit k) := by
    intro k
    rw [hsb k]
    show _ = (_ && (regmap_read s .nss_common NSS_COMMON_CLK_SRC_CTRL).testBit k)
    rw [testBit_regmap_read]
    by_cases hk : k = 1
    · simp [hk, rgmii_family]
    · simp [hk]
  have hv3 : ∀ k, (u32 cw).testBit k =
      (decide (k = 17 ∨ k = 5 ∨ k = 1) || (regmap_read s .nss_common 0x8).testBit k) := by
    intro k
    rw [hcb k]
    show _ = (_ || (regmap_read s .nss_common NSS_COMMON_CLK_GATE).testBit k)
    rw [testBit_regmap_read]
    have e : gate_rx_bit .SGMII 1 = 5 := rfl
    have e2 : gate_tx_bit .SGMII 1 = 1 := rfl
    rw [e, e2]
    by_cases hk : k = 16 + 1 ∨ k = 5 ∨ k = 1
    · have h32 : k < 32 := by omega
      have hk2 : k = 17 ∨ k = 5 ∨ k = 1 := by omega
      simp [hk, hk2, h32]
    · have hk2 : ¬ (k = 17 ∨ k = 5 ∨ k = 1) := by omega
      simp [hk, hk2]
  rcases hu with hu | hu
  · refine ⟨[], ?_, hv2, hv3, Or.inl rfl, hfinal⟩
    rw [hprobe]
    show (regmap_update_bits _ _ _ _ _).writes = _
    rw [hu, hbase, List.append_nil]
  · refine ⟨[⟨.qsgmii_csr, 0x80, regmap_read (ipq806x_gmac_probe pdev s).2 .qsgmii_csr 0x80⟩],
      ?_, hv2, hv3, Or.inr rfl, hfinal⟩
    rw [hprobe]
    show (regmap_update_bits _ _ _ _ _).writes = _
    rw [hu, hbase, List.append_assoc]
    rfl

/-- Witness of C11 (amended): instance 1 in mode SGMII on registers holding
all ones. -/
theorem probe_sgmii_instance1_witness :
    (pdev_ok .SGMII 1 false).resources_ret = 0 ∧ (pdev_ok .SGMII 1 false).plat_dat_err = 0 ∧
    (pdev_ok .SGMII 1 false).kzalloc_ok = true ∧
    (ipq806x_gmac_of_parse (pdev_ok .SGMII 1 false) (hw_fill 0xFFFFFFFF 0xFFFFFFFF)).1 = 0 ∧
    (ipq806x_gmac_of_parse (pdev_ok .SGMII 1 false) (hw_fill 0xFFFFFFFF 0xFFFFFFFF)).2.1 =
      ⟨1, .SGMII⟩ ∧
    (pdev_ok .SGMII 1 false).is_fixed_link = false ∧ (pdev_ok .SGMII 1 false).soc_v1 = false ∧
    (ipq806x_gmac_probe (pdev_ok .SGMII 1 false) (hw_fill 0xFFFFFFFF 0xFFFFFFFF)).1 =
      (pdev_ok .SGMII 1 false).dvr_probe_ret ∧
    (ipq806x_gmac_probe (pdev_ok .SGMII 1 false) (hw_fill 0xFFFFFFFF 0xFFFFFFFF)).2.handoff =
      some ⟨true, ⟨1, .SGMII⟩, 0, 8192, 8192⟩ ∧
    ∃ v2 v3 l,
      (ipq806x_gmac_probe (pdev_ok .SGMII 1 false) (hw_fill 0xFFFFFFFF 0xFFFFFFFF)).2.writes =
        (hw_fill 0xFFFFFFFF 0xFFFFFFFF).writes ++
        ([⟨.qsgmii_csr, 0x120, BIT 19⟩, ⟨.nss_common, 0x34, 0x80C0C⟩,
          ⟨.nss_common, 0x14, v2⟩, ⟨.nss_common, 0x8, v3⟩,
          ⟨.qsgmii_csr, 0x134, 0xD098408F⟩] ++ l) ∧
      (∀ k, v2.testBit k =
        (decide (k ≠ 1) &&
          (regmap_read (hw_fill 0xFFFFFFFF 0xFFFFFFFF) .nss_common 0x14).testBit k)) ∧
      (∀ k, v3.testBit k =
        (decide (k = 17 ∨ k = 5 ∨ k = 1) ||
          (regmap_read (hw_fill 0xFFFFFFFF 0xFFFFFFFF) .nss_common 0x8).testBit k)) ∧
      (l = [] ∨
        l = [⟨.qsgmii_csr, 0x80,
          regmap_read (ipq806x_gmac_probe (pdev_ok .SGMII 1 false)
            (hw_fill 0xFFFFFFFF 0xFFFFFFFF)).2 .qsgmii_csr 0x80⟩]) ∧
      ∀ k, (regmap_read (ipq806x_gmac_probe (pdev_ok .SGMII 1 false)
          (hw_fill 0xFFFFFFFF 0xFFFFFFFF)).2 .qsgmii_csr 0x80).testBit k =
        (decide (k < 5 ∨ 7 < k) &&
          (regmap_read (hw_fill 0xFFFFFFFF 0xFFFFFFFF) .qsgmii_csr 0x80).testBit k) :=
  ⟨rfl, rfl, rfl, rfl, rfl, rfl, rfl,
    probe_sgmii_instance1 (pdev_ok .SGMII 1 false) (hw_fill 0xFFFFFFFF 0xFFFFFFFF)
      rfl rfl rfl rfl rfl rfl rfl⟩

/-! ## The PCS reset at the head of the bring-up -/

theorem probe_clocks_state_handoff (gmac : ipq806x_gmac) (s : hw) (gw sw cw : Nat) :
    (probe_clocks_state gmac s gw sw cw).handoff = s.handoff := by
  unfold probe_clocks_state
  simp only [regmap_write_handoff]

theorem regmap_write_u32 (s : hw) (m : regmap) (reg val : Nat) :
    regmap_write s m reg (u32 val) = regmap_write s m reg val := by
  have h : u32 (u32 val) = u32 val := u32_of_lt (u32_lt val)
  cases m <;> simp only [regmap_write, h]

/-- C7 (amended): bring-up after a successful parse with instance 0 and mode
SGMII makes exactly four writes, in this order: the PCS calibration-lock-detect
reset (qsgmii-csr 0x120 := BIT(19)), issued before the mode is looked at, then
nss-common 0x30 := 0x80C0C, nss-common 0x14 with bit 0 cleared and nss-common
0x8 with bits 16, 4 and 0 set. The result of the bring-up is then the result of
the analog-parameter resolution called on the state these four writes leave:
-EINVAL, the error it raises for instance 0 without writing. The configuration
is not handed to the stmmac core, and the reset is the only write to
qsgmii-csr. -/
theorem probe_sgmii_instance0 (pdev : platform_device) (s : hw)
    (h1 : pdev.resources_ret = 0) (h2 : pdev.plat_dat_err = 0) (h3 : pdev.kzalloc_ok = true)
    (hp : (ipq806x_gmac_of_parse pdev s).1 = 0)
    (hg : (ipq806x_gmac_of_parse pdev s).2.1 = ⟨0, .SGMII⟩) :
    (ipq806x_gmac_probe pdev s).1 = -EINVAL ∧
    (∀ s1 : hw, ipq806x_gmac_configure_qsgmii_params pdev ⟨0, .SGMII⟩ s1 = (-EINVAL, s1)) ∧
    (ipq806x_gmac_probe pdev s).2.handoff = s.handoff ∧
    (∃ l : List reg_write, (ipq806x_gmac_probe pdev s).2.writes = s.writes ++ l ∧
      writes_to .qsgmii_csr l =
        [⟨.qsgmii_csr, QSGMII_PCS_CAL_LCKDT_CTL, QSGMII_PCS_CAL_LCKDT_CTL_RST⟩]) ∧
    ∃ (v2 v3 : Nat) (t : hw),
      t.writes = s.writes ++
        [⟨.qsgmii_csr, 0x120, BIT 19⟩, ⟨.nss_common, 0x30, 0x80C0C⟩,
          ⟨.nss_common, 0x14, v2⟩, ⟨.nss_common, 0x8, v3⟩] ∧
      (∀ k, v2.testBit k = (decide (k ≠ 0) && (regmap_read s .nss_common 0x14).testBit k)) ∧
      (∀ k, v3.testBit k =
        (decide (k = 16 ∨ k = 4 ∨ k = 0) || (regmap_read s .nss_common 0x8).testBit k)) ∧
      ipq806x_gmac_probe pdev s = ipq806x_gmac_configure_qsgmii_params pdev ⟨0, .SGMII⟩ t ∧
      (ipq806x_gmac_probe pdev s).2.writes = t.writes := by
  have hm : supported_mode .SGMII = true := by decide
  have hgw : probe_gmac_ctl ⟨0, .SGMII⟩ = some 0x80C0C := by
    have := probe_gmac_ctl_supported 0 .SGMII hm
    rw [this]
    decide
  obtain ⟨sw, hsw, hsb⟩ := probe_clk_src_supported 0 .SGMII
    (regmap_read s .nss_common NSS_COMMON_CLK_SRC_CTRL) hm
  obtain ⟨cw, hcw, hcb⟩ := probe_clk_gate_supported 0 .SGMII
    (regmap_read s .nss_common NSS_COMMON_CLK_GATE) hm
  obtain ⟨p1, p2, -⟩ := of_parse_writes pdev s
  have hsw0 := hsw
  have hcw0 := hcw
  rw [← of_parse_read pdev s] at hsw0 hcw0
  have hstep := probe_after_parse_steps pdev ⟨0, .SGMII⟩ (ipq806x_gmac_of_parse pdev s).2.2
    _ sw cw hgw hsw0 hcw0
  have hw := probe_clocks_state_writes ⟨0, .SGMII⟩ (ipq806x_gmac_of_parse pdev s).2.2
    0x80C0C sw cw
  rw [p1] at hw
  have hh := probe_clocks_state_handoff ⟨0, .SGMII⟩ (ipq806x_gmac_of_parse pdev s).2.2
    0x80C0C sw cw
  rw [p2] at hh
  have hne : (-EINVAL : Int) ≠ 0 := by decide
  have hprobe : ipq806x_gmac_probe pdev s =
      (-EINVAL,
        probe_clocks_state ⟨0, .SGMII⟩ (ipq806x_gmac_of_parse pdev s).2.2 0x80C0C sw cw) := by
    rw [probe_eq_after_parse pdev s h1 h2 h3 hp, hg, hstep]
    simp only [if_true]
    unfold probe_sgmii_tail
    rw [params_id0]
    exact if_pos hne
  have hlist : (probe_clocks_state ⟨0, .SGMII⟩ (ipq806x_gmac_of_parse pdev s).2.2 0x80C0C
      sw cw).writes = s.writes ++
        [⟨.qsgmii_csr, 0x120, BIT 19⟩, ⟨.nss_common, 0x30, 0x80C0C⟩,
          ⟨.nss_common, 0x14, u32 sw⟩, ⟨.nss_common, 0x8, u32 cw⟩] := by
    rw [hw]
    rfl
  have hv2 : ∀ k, (u32 sw).testBit k =
      (decide (k ≠ 0) && (regmap_read s .nss_common 0x14).testBit k) := by
    intro k
    rw [hsb k]
    show _ = (_ && (regmap_read s .nss_common NSS_COMMON_CLK_SRC_CTRL).testBit k)
    rw [testBit_regmap_read]
    by_cases hk : k = 0
    · simp [hk, rgmii_family]
    · simp [hk]
  have hv3 : ∀ k, (u32 cw).testBit k =
      (decide (k = 16 ∨ k = 4 ∨ k = 0) || (regmap_read s .nss_common 0x8).testBit k) := by
    intro k
    rw [hcb k]
    show _ = (_ || (regmap_read s .nss_common NSS_COMMON_CLK_GATE).testBit k)
    rw [testBit_regmap_read]
    have e : gate_rx_bit .SGMII 0 = 4 := rfl
    have e2 : gate_tx_bit .SGMII 0 = 0 := rfl
    rw [e, e2]
    by_cases hk : k = 16 + 0 ∨ k = 4 ∨ k = 0
    · have h32 : k < 32 := by omega
      have hk2 : k = 16 ∨ k = 4 ∨ k = 0 := by omega
      simp [hk, hk2, h32]
    · have hk2 : ¬ (k = 16 ∨ k = 4 ∨ k = 0) := by omega
      simp [hk, hk2]
  refine ⟨by rw [hprobe], fun s1 => params_id0 pdev .SGMII s1, by rw [hprobe]; exact hh,
    ⟨_, by rw [hprobe]; exact hlist, by simp [writes_to]; decide⟩,
    u32 sw, u32 cw, _, hlist, hv2, hv3, ?_, by rw [hprobe]⟩
  rw [hprobe, params_id0]

/-- Witness of C7 (amended): instance 0 in mode SGMII on cleared registers. -/
theorem probe_sgmii_instance0_witness :
    (pdev_ok .SGMII 0 false).resources_ret = 0 ∧ (pdev_ok .SGMII 0 false).plat_dat_err = 0 ∧
    (pdev_ok .SGMII 0 false).kzalloc_ok = true ∧
    (ipq806x_gmac_of_parse (pdev_ok .SGMII 0 false) (hw_fill 0 0)).1 = 0 ∧
    (ipq806x_gmac_of_parse (pdev_ok .SGMII 0 false) (hw_fill 0 0)).2.1 = ⟨0, .SGMII⟩ ∧
    (ipq806x_gmac_probe (pdev_ok .SGMII 0 false) (hw_fill 0 0)).1 = -EINVAL ∧
    (∀ s1 : hw, ipq806x_gmac_configure_qsgmii_params (pdev_ok .SGMII 0 false) ⟨0, .SGMII⟩ s1 =
      (-EINVAL, s1)) ∧
    (ipq806x_gmac_probe (pdev_ok .SGMII 0 false) (hw_fill 0 0)).2.handoff =
      (hw_fill 0 0).handoff ∧
    (∃ l : List reg_write,
      (ipq806x_gmac_probe (pdev_ok .SGMII 0 false) (hw_fill 0 0)).2.writes =
        (hw_fill 0 0).writes ++ l ∧
      writes_to .qsgmii_csr l =
        [⟨.qsgmii_csr, QSGMII_PCS_CAL_LCKDT_CTL, QSGMII_PCS_CAL_LCKDT_CTL_RST⟩]) ∧
    ∃ (v2 v3 : Nat) (t : hw),
      t.writes = (hw_fill 0 0).writes ++
        [⟨.qsgmii_csr, 0x120, BIT 19⟩, ⟨.nss_common, 0x30, 0x80C0C⟩,
          ⟨.nss_common, 0x14, v2⟩, ⟨.nss_common, 0x8, v3⟩] ∧
      (∀ k, v2.testBit k =
        (decide (k ≠ 0) && (regmap_read (hw_fill 0 0) .nss_common 0x14).testBit k)) ∧
      (∀ k, v3.testBit k =
        (decide (k = 16 ∨ k = 4 ∨ k = 0) ||
          (regmap_read (hw_fill 0 0) .nss_common 0x8).testBit k)) ∧
      ipq806x_gmac_probe (pdev_ok .SGMII 0 false) (hw_fill 0 0) =
        ipq806x_gmac_configure_qsgmii_params (pdev_ok .SGMII 0 false) ⟨0, .SGMII⟩ t ∧
      (ipq806x_gmac_probe (pdev_ok .SGMII 0 false) (hw_fill 0 0)).2.writes = t.writes :=
  ⟨rfl, rfl, rfl, rfl, rfl,
    probe_sgmii_instance0 (pdev_ok .SGMII 0 false) (hw_fill 0 0) rfl rfl rfl rfl rfl⟩

/-- C8 (amended): bring-up after a successful parse issues the PCS
calibration-lock-detect reset write (qsgmii-csr offset 0x120, value BIT(19)) as
its first write in every interface mode, SGMII and the RGMII family alike; in
an RGMII-family mode the bring-up makes no other write to the qsgmii-csr
region. -/
theorem probe_rgmii_pcs_reset (pdev : platform_device) (s : hw)
    (h1 : pdev.resources_ret = 0) (h2 : pdev.plat_dat_err = 0) (h3 : pdev.kzalloc_ok = true)
    (hp : (ipq806x_gmac_of_parse pdev s).1 = 0) :
    ∃ l : List reg_write,
      (ipq806x_gmac_probe pdev s).2.writes =
        s.writes ++ ⟨.qsgmii_csr, 0x120, BIT 19⟩ :: l ∧
      (rgmii_family pdev.phy_interface = true → writes_to .qsgmii_csr l = []) := by
  obtain ⟨p1, -, p3⟩ := of_parse_writes pdev s
  rcases hgm : (ipq806x_gmac_of_parse pdev s).2.1 with ⟨id, mode⟩
  rw [hgm] at p3
  simp only at p3
  rw [← p3]
  by_cases hr : rgmii_family mode = true
  · obtain ⟨-, v1, v2, v3, e3⟩ :=
      probe_after_parse_rgmii pdev id mode (ipq806x_gmac_of_parse pdev s).2.2 hr
    refine ⟨[⟨.nss_common, NSS_COMMON_GMAC_CTL id, v1⟩,
      ⟨.nss_common, NSS_COMMON_CLK_SRC_CTRL, v2⟩, ⟨.nss_common, NSS_COMMON_CLK_GATE, v3⟩],
      ?_, ?_⟩
    · rw [probe_eq_after_parse pdev s h1 h2 h3 hp, hgm, e3, p1]
      rfl
    · intro _
      simp [writes_to]
  · by_cases hs : supported_mode mode = true
    · obtain ⟨sw, cw, l, -, -, hw, -, -, -, -⟩ :=
        probe_supported_summary pdev s id mode h1 h2 h3 hp hgm hs
      refine ⟨[⟨.nss_common, NSS_COMMON_GMAC_CTL id,
          if rgmii_family mode then 0x90C0C else 0x80C0C⟩,
        ⟨.nss_common, NSS_COMMON_CLK_SRC_CTRL, u32 sw⟩,
        ⟨.nss_common, NSS_COMMON_CLK_GATE, u32 cw⟩] ++ l, ?_, fun h => absurd h hr⟩
      rw [hw]
      rfl
    · have hs2 : supported_mode mode = false := by
        cases h : supported_mode mode
        · rfl
        · exact absurd h hs
      refine ⟨[], ?_, fun h => absurd h hr⟩
      rw [probe_eq_after_parse pdev s h1 h2 h3 hp, hgm,
        probe_after_parse_unsupported pdev id mode _ hs2, regmap_write_writes, p1]
      rfl

/-- Witness of C8 (amended): instance 2 in mode SGMII and instance 2 in mode
RGMII_TXID. -/
theorem probe_rgmii_pcs_reset_witness :
    (pdev_ok .SGMII 2 false).resources_ret = 0 ∧
    (pdev_ok .SGMII 2 false).plat_dat_err = 0 ∧
    (pdev_ok .SGMII 2 false).kzalloc_ok = true ∧
    (ipq806x_gmac_of_parse (pdev_ok .SGMII 2 false) (hw_fill 0 0)).1 = 0 ∧
    (∃ l : List reg_write,
      (ipq806x_gmac_probe (pdev_ok .SGMII 2 false) (hw_fill 0 0)).2.writes =
        (hw_fill 0 0).writes ++ ⟨.qsgmii_csr, 0x120, BIT 19⟩ :: l ∧
      (rgmii_family (pdev_ok .SGMII 2 false).phy_interface = true →
        writes_to .qsgmii_csr l = [])) ∧
    (pdev_ok .RGMII_TXID 2 false).resources_ret = 0 ∧
    (pdev_ok .RGMII_TXID 2 false).plat_dat_err = 0 ∧
    (pdev_ok .RGMII_TXID 2 false).kzalloc_ok = true ∧
    (ipq806x_gmac_of_parse (pdev_ok .RGMII_TXID 2 false) (hw_fill 0 0)).1 = 0 ∧
    ∃ l : List reg_write,
      (ipq806x_gmac_probe (pdev_ok .RGMII_TXID 2 false) (hw_fill 0 0)).2.writes =
        (hw_fill 0 0).writes ++ ⟨.qsgmii_csr, 0x120, BIT 19⟩ :: l ∧
      (rgmii_family (pdev_ok .RGMII_TXID 2 false).phy_interface = true →
        writes_to .qsgmii_csr l = []) :=
  ⟨rfl, rfl, rfl, rfl,
    probe_rgmii_pcs_reset (pdev_ok .SGMII 2 false) (hw_fill 0 0) rfl rfl rfl rfl,
    rfl, rfl, rfl, rfl,
    probe_rgmii_pcs_reset (pdev_ok .RGMII_TXID 2 false) (hw_fill 0 0) rfl rfl rfl rfl⟩

end Ipq806x
